import Mathlib

/-!
Verification of the propagation / serialization core of the `NodeInstance`
class (src/Ryven/custom_src/NodeInstance.py).

The embedding models the state of a `NodeInstance` (its ordered input and
output port instances, special actions, custom state and main-widget data),
the update-propagation API (`update`, `input`, `set_output_val`,
`exec_output`, `data_outputs_updated`), structural port edits
(`create_new_input/output`, `delete_input/output`) and the serialization
contract (`get_json_data`, `set_special_actions_data`,
`get_special_actions_data`, `setup_ports`, and the `initialized()` load
sequence, modelled as `finish_init`).

Conventions of the embedding:
* Python list indexing (including negative indices) is modelled by
  `pyResolve` / `pyIndex`; Python exceptions are values of `PyErr` and a
  raising method returns `Except PyErr _` (or a partial state paired with
  `Option PyErr` where mutations precede the raise).
* Host JSON payloads (widget data, custom state values) are opaque to every
  modelled operation; they are represented by the small type `JData`.
* UI-only behavior (layout, painting, animation, shape updates, scene items,
  positions) is outside the modelled state, as the specification excludes it.
* Classes referenced but not contained in src (PortInstance, Flow, the `M`
  wrapper of custom_src.retain, widgets) are modelled from the spec; each such
  definition carries a note in its doc comment.
-/

namespace Ryven

/-- Opaque JSON-able host payload (widget data, custom state, port values).
Every modelled operation treats these values opaquely; three constructors are
enough to distinguish concrete payloads and Python's `None` (`null`). -/
inductive JData where
  | null
  | int (n : Int)
  | str (s : String)
deriving DecidableEq, Repr

/-- Kinds of Python exceptions raised by the modelled code paths. -/
inductive PyErr where
  | indexError
  | valueError
  | attributeError
  | typeError
deriving DecidableEq, Repr

/-- Resolution of a Python sequence index: for a list of length `n`, a
negative index `i` denotes position `i + n`; the result is the resolved
non-negative position, or `none` when the access raises IndexError. -/
def pyResolve (n : Nat) (i : Int) : Option Nat :=
  if i < 0 then
    if 0 ≤ i + n ∧ i + n < (n : Int) then some (i + n).toNat else none
  else
    if 0 ≤ i ∧ i < (n : Int) then some i.toNat else none

/-- An index Python accepts for a sequence of length `n`: `-n ≤ i < n`. -/
def pyValid (n : Nat) (i : Int) : Prop :=
  -(n : Int) ≤ i ∧ i < (n : Int)

instance (n : Nat) (i : Int) : Decidable (pyValid n i) := by
  unfold pyValid; exact inferInstance

/-- Python indexing `l[i]`, raising IndexError on out-of-range access. -/
def pyIndex {α : Type} (l : List α) (i : Int) : Except PyErr α :=
  match pyResolve l.length i with
  | some j =>
    match l.get? j with
    | some x => Except.ok x
    | none => Except.error PyErr.indexError
  | none => Except.error PyErr.indexError

theorem pyResolve_isSome_iff (n : Nat) (i : Int) :
    (pyResolve n i).isSome = true ↔ pyValid n i := by
  unfold pyResolve pyValid
  by_cases hneg : i < 0 <;> simp only [hneg, if_true, if_false] <;> split <;>
    simp_all <;> omega

theorem pyResolve_lt {n : Nat} {i : Int} {j : Nat}
    (h : pyResolve n i = some j) : j < n := by
  unfold pyResolve at h
  split at h <;> split at h <;> simp_all <;> omega

theorem pyResolve_nonneg {n : Nat} {j : Nat} (hj : j < n) :
    pyResolve n (j : Int) = some j := by
  unfold pyResolve
  have h0 : ¬ ((j : Int) < 0) := by omega
  have h1 : 0 ≤ (j : Int) ∧ (j : Int) < (n : Int) := by
    constructor <;> omega
  simp [h0, h1]

theorem pyResolve_neg {n : Nat} {i : Int} (h0 : i < 0) (h1 : -(n : Int) ≤ i) :
    pyResolve n i = some (i + n).toNat := by
  unfold pyResolve
  have h2 : 0 ≤ i + n ∧ i + n < (n : Int) := by
    constructor <;> omega
  simp [h0, h2]

theorem pyIndex_ok_of_get? {α : Type} {l : List α} {i : Int} {j : Nat} {x : α}
    (hres : pyResolve l.length i = some j) (hget : l.get? j = some x) :
    pyIndex l i = Except.ok x := by
  simp only [pyIndex, hres, hget]

theorem pyIndex_error_iff {α : Type} (l : List α) (i : Int) :
    pyIndex l i = Except.error PyErr.indexError ↔ ¬ pyValid l.length i := by
  constructor
  · intro h hv
    have hs : (pyResolve l.length i).isSome = true :=
      (pyResolve_isSome_iff l.length i).mpr hv
    match hres : pyResolve l.length i with
    | none => rw [hres] at hs; simp at hs
    | some j =>
      have hj : j < l.length := pyResolve_lt hres
      have hget : (l.get? j).isSome = true := by
        rw [List.get?_eq_get hj]; rfl
      match hg : l.get? j with
      | none => rw [hg] at hget; simp at hget
      | some x =>
        rw [pyIndex_ok_of_get? hres hg] at h
        exact absurd h (by simp)
  · intro hv
    match hres : pyResolve l.length i with
    | some j =>
      exact absurd ((pyResolve_isSome_iff l.length i).mp (by rw [hres]; rfl)) hv
    | none => simp only [pyIndex, hres]

theorem pyIndex_isOk_iff {α : Type} (l : List α) (i : Int) :
    (∃ x, pyIndex l i = Except.ok x) ↔ pyValid l.length i := by
  constructor
  · intro ⟨x, hx⟩
    by_contra hv
    rw [(pyIndex_error_iff l i).mpr hv] at hx
    exact absurd hx (by simp)
  · intro hv
    have hs : (pyResolve l.length i).isSome = true :=
      (pyResolve_isSome_iff l.length i).mpr hv
    match hres : pyResolve l.length i with
    | none => rw [hres] at hs; simp at hs
    | some j =>
      have hj : j < l.length := pyResolve_lt hres
      match hg : l.get? j with
      | none =>
        have : (l.get? j).isSome = true := by rw [List.get?_eq_get hj]; rfl
        rw [hg] at this; simp at this
      | some x => exact ⟨x, pyIndex_ok_of_get? hres hg⟩

/-- The effective position used by Python's `list.insert(i, x)`:
negative indices count from the end, everything is clamped into `[0, n]`. -/
def pyInsertIdx (n : Nat) (i : Int) : Nat :=
  if i < 0 then (max 0 (i + n)).toNat else min i.toNat n

/-- Python's `list.insert(i, x)`. -/
def pyListInsert {α : Type} (l : List α) (i : Int) (x : α) : List α :=
  l.take (pyInsertIdx l.length i) ++ x :: l.drop (pyInsertIdx l.length i)

theorem pyInsertIdx_of_nonneg {n : Nat} {i : Int} (h0 : 0 ≤ i)
    (h1 : i ≤ (n : Int)) : pyInsertIdx n i = i.toNat := by
  unfold pyInsertIdx
  have hn : ¬ (i < 0) := by omega
  have : i.toNat ≤ n := by omega
  simp [hn, Nat.min_eq_left this]

/-- An `update(input_called)` invocation requested on a connected node
instance: the index of the target node in the flow and the triggering input
index passed to its `update`. -/
structure UpdateCall where
  node : Nat
  input_called : Nat
deriving DecidableEq, Repr

/-- Modelled from the spec: `InputPortInstance` (custom_src.PortInstance,
not in src). An input port instance carries its duck-typed kind tag
(`type_`, `"data"` or `"exec"`), a label, the configuration of its optional
default-value widget, the widget's current serialized value, and the set of
connected peer ports (spec section 3, "Port"). Ports are identified by an
id `pid`, standing for Python object identity; connection sets reference
peer ports by their ids. A port has a widget exactly when `widget_type`
is present. -/
structure InputPortInstance where
  pid : Nat
  type_ : String
  label : String
  widget_type : Option String := none
  widget_name : Option String := none
  widget_pos : Option String := none
  widget_val : JData := JData.null
  connected_port_instances : List Nat := []
deriving DecidableEq, Repr

/-- Modelled from the spec: `OutputPortInstance` (custom_src.PortInstance,
not in src). An output port instance carries its kind tag, a label, the last
stored value (`val`, data ports) and the connected peer input ports,
referenced by their ids. -/
structure OutputPortInstance where
  pid : Nat
  type_ : String
  label : String
  val : JData := JData.null
  connected_port_instances : List Nat := []
deriving DecidableEq, Repr

mutual
/-- Serialized form of a special-actions entry value, as stored inside the
`special actions` member of the JSON description: either a plain JSON value
(a method name string, or preserved `data`), or a nested string-keyed dict. -/
inductive SAData where
  | v (val : JData)
  | dict (entries : SADataDict)
/-- A serialized special-actions dict: an ordered association list
(Python dicts preserve insertion order). -/
inductive SADataDict where
  | nil
  | cons (key : String) (val : SAData) (rest : SADataDict)
end

mutual
/-- Live form of a special-actions entry value held by a `NodeInstance`:
an `M`-wrapped bound method (custom_src.retain.M, not in src, modelled from
its use: it retains the method and exposes `method_name`), a plain callable
(identified by its `__name__`), a plain value, or a nested dict (submenu). -/
inductive SAVal where
  | m (method_name : String)
  | callableV (name : String)
  | v (val : JData)
  | dict (entries : SADict)
/-- A live special-actions dict: an ordered association list. -/
inductive SADict where
  | nil
  | cons (key : String) (val : SAVal) (rest : SADict)
end

/-- Template port entry of a node kind (custom_src.Node, not in src,
modelled from its use in `setup_ports`: fields `type_`, `label`,
`widget_type`, `widget_name`, `widget_pos`). -/
structure NodeTemplateInput where
  type_ : String
  label : String
  widget_type : Option String := none
  widget_name : Option String := none
  widget_pos : Option String := none
deriving DecidableEq, Repr

/-- Template output entry of a node kind (fields `type_`, `label`). -/
structure NodeTemplateOutput where
  type_ : String
  label : String
deriving DecidableEq, Repr

/-- The node kind / template a `NodeInstance` is created from
(custom_src.Node, not in src, modelled from its use in NodeInstance.py:
`title`, `type_`, `package`, `description`, `has_main_widget`, and the
default port lists). -/
structure Node where
  title : String
  type_ : String
  package : String
  description : String
  has_main_widget : Bool := false
  inputs : List NodeTemplateInput := []
  outputs : List NodeTemplateOutput := []
deriving DecidableEq, Repr

/-- Serialized description of one input port, as produced by the input
port's `get_json_data` (spec section 6): kind tag, label, whether a widget
is attached, and — only then — the widget's configuration and serialized
data. -/
structure InputDesc where
  type_ : String
  label : String
  has_widget : Bool
  widget_type : Option String := none
  widget_name : Option String := none
  widget_pos : Option String := none
  widget_data : Option JData := none
deriving DecidableEq, Repr

/-- Serialized description of one output port (spec section 6): only the
kind tag and the label; the stored value is not part of the description. -/
structure OutputDesc where
  type_ : String
  label : String
deriving DecidableEq, Repr

/-- The JSON-able description of a whole `NodeInstance` returned by
`get_json_data`. The screen position (`position x` / `position y`) is an
ephemeral UI attribute and outside the modelled state. The
`main widget data` key is present exactly when the instance has a main
widget. -/
structure NIDesc where
  parent_node_title : String
  parent_node_type : String
  parent_node_package : String
  parent_node_description : String
  main_widget_data : Option JData := none
  state_data : JData := JData.null
  special_actions : SADataDict := SADataDict.nil
  inputs : List InputDesc := []
  outputs : List OutputDesc := []

/-- The modelled state of a `NodeInstance`: the template it was created
from, the ordered port instance lists, the special actions dict, the main
widget's data (present iff the template has a main widget; the widget is
modelled by its serialized data, satisfying the widget `get_data`/`set_data`
round-trip contract of the spec), the custom state (`get_data`/`set_data`
are modelled as a representative stateful node kind that stores its custom
state in `state_data`, per the contract stated in their docstrings), the
`temp_state_data` staging slot and the stored `init_config`. `next_pid`
supplies fresh port ids. -/
structure NodeInstance where
  parent_node : Node
  inputs : List InputPortInstance := []
  outputs : List OutputPortInstance := []
  special_actions : SADict := SADict.nil
  main_widget : Option JData := none
  state_data : JData := JData.null
  temp_state_data : JData := JData.null
  init_config : Option NIDesc := none
  next_pid : Nat := 0

/-- A flow, as far as this model needs it: the ordered collection of node
instances; connections are stored on the ports themselves. -/
abbrev Flow := List NodeInstance

/-- Index of the input port with id `pid` inside a port list (the position
used as the triggering input index on the receiving side). -/
def idxOfInputPid (pid : Nat) : List InputPortInstance → Option Nat
  | [] => none
  | p :: rest =>
    if p.pid = pid then some 0 else (idxOfInputPid pid rest).map (· + 1)

/-- Auxiliary scan for `findInputOwner`, carrying the index of the first
scanned node. -/
def findInputOwnerAux (pid : Nat) : Flow → Nat → Option (Nat × Nat)
  | [], _ => none
  | s :: rest, n =>
    match idxOfInputPid pid s.inputs with
    | some i => some (n, i)
    | none => findInputOwnerAux pid rest (n + 1)

/-- The owning node instance of the input port with id `pid` and the port's
index among that instance's inputs: dereferencing a connection on the
receiving side (`cpi.parent_node_instance` and the triggering input index). -/
def findInputOwner (w : Flow) (pid : Nat) : Option (Nat × Nat) :=
  findInputOwnerAux pid w 0

/-- First output port with id `pid` in a port list. -/
def findOutputIn (pid : Nat) : List OutputPortInstance → Option OutputPortInstance
  | [] => none
  | o :: rest => if o.pid = pid then some o else findOutputIn pid rest

/-- Dereference an output port id across the flow (Python object identity). -/
def findOutputVal (pid : Nat) : Flow → Option JData
  | [] => none
  | s :: rest =>
    match findOutputIn pid s.outputs with
    | some o => some o.val
    | none => findOutputVal pid rest

/-- Position scan for an output port id: index of the owning node and index
of the port among that node's outputs. -/
def findOutputLocAux (pid : Nat) : Flow → Nat → Option (Nat × Nat)
  | [], _ => none
  | s :: rest, n =>
    match idxOfOutputPid pid s.outputs with
    | some i => some (n, i)
    | none => findOutputLocAux pid rest (n + 1)
where
  idxOfOutputPid (pid : Nat) : List OutputPortInstance → Option Nat
    | [] => none
    | o :: rest =>
      if o.pid = pid then some 0 else (idxOfOutputPid pid rest).map (· + 1)

/-- Location (node index, output index) of the output port with id `pid`. -/
def findOutputLoc (w : Flow) (pid : Nat) : Option (Nat × Nat) :=
  findOutputLocAux pid w 0

/-- First input port with id `pid` in a port list. -/
def findInputIn (pid : Nat) : List InputPortInstance → Option InputPortInstance
  | [] => none
  | p :: rest => if p.pid = pid then some p else findInputIn pid rest

/-- Dereference an input port id across the flow. -/
def findInput (pid : Nat) : Flow → Option InputPortInstance
  | [] => none
  | s :: rest =>
    match findInputIn pid s.inputs with
    | some p => some p
    | none => findInput pid rest

/-- The input port at position `i` of node `n` of the flow. -/
def flowInput (w : Flow) (n i : Nat) : Option InputPortInstance :=
  (w.get? n).bind (fun s => s.inputs.get? i)

/-- Modelled from the spec: `InputPortInstance.get_val` (PortInstance not in
src). The effective value of a data input resolves through the connection
when one is present — the connected output's stored value — and falls back
to the port's widget value otherwise (spec sections 3 and 4.1; the
NodeInstance.input docstring states the same contract). -/
def InputPortInstance.get_val (p : InputPortInstance) (w : Flow) : JData :=
  match p.connected_port_instances.head? with
  | some opid => (findOutputVal opid w).getD JData.null
  | none => p.widget_val

/-- Modelled from the spec: `OutputPortInstance.set_val` (PortInstance not
in src). Sets the stored value only; it performs no propagation (the
NodeInstance.set_output_val docstring: `data_outputs_updated()` has to be
called manually afterwards), hence the empty list of emitted update calls. -/
def OutputPortInstance.set_val (o : OutputPortInstance) (v : JData) :
    OutputPortInstance × List UpdateCall :=
  ({ o with val := v }, [])

/-- Modelled from the spec: `OutputPortInstance.updated_val` (PortInstance
not in src). Notifies every connected input port's owning node instance by
an `update` call whose triggering input index is the index of the connection
on the receiving side (spec section 4.1). The calls are returned as a trace
in connection-list order. -/
def OutputPortInstance.updated_val (o : OutputPortInstance) (w : Flow) :
    List UpdateCall :=
  o.connected_port_instances.filterMap
    (fun pid => (findInputOwner w pid).map
      (fun ni => { node := ni.1, input_called := ni.2 }))

/-- Modelled from the spec: `OutputPortInstance.exec` (PortInstance not in
src). Triggers `update` on every connected input's owning node instance,
with the receiving-side input index (spec section 4.1, `exec_output`). -/
def OutputPortInstance.exec (o : OutputPortInstance) (w : Flow) :
    List UpdateCall :=
  o.connected_port_instances.filterMap
    (fun pid => (findInputOwner w pid).map
      (fun ni => { node := ni.1, input_called := ni.2 }))

/-- Result of a call to `NodeInstance.update`: the node state it leaves
behind (possibly the partial state a failed `update_event` produced), the
Debugger.debug log entries emitted, and the exception escaping to the
caller, which the try/except of `update` keeps at `none`. -/
structure UpdateResult where
  state : NodeInstance
  log : List (List String)
  raised : Option String

/-- `NodeInstance.update(input_called)` (NodeInstance.py lines 191-203).
The node-kind-defined `update_event` is a parameter: it returns the state
it reached together with the exception it raised, if any (`update_event`
of the base class does nothing and raises nothing). `update` first logs
`'update in', title, 'on input', input_called`, runs `update_event` inside
try/except, and on an exception logs `'EXCEPTION IN', title, 'NI:', e`
instead of re-raising. The animation start is UI-only and outside the
model. -/
def NodeInstance.update
    (update_event : Int → NodeInstance → NodeInstance × Option String)
    (input_called : Int) (s : NodeInstance) : UpdateResult :=
  let entry := ["update in", s.parent_node.title, "on input",
                toString input_called]
  match update_event input_called s with
  | (s', none) => { state := s', log := [entry], raised := none }
  | (s', some e) =>
    { state := s',
      log := [entry, ["EXCEPTION IN", s.parent_node.title, "NI:", e]],
      raised := none }

/-- `NodeInstance.data_outputs_updated()` (lines 210-217): for every output
port in stored order whose `type_` is `'data'`, fire `updated_val`. The
resulting trace concatenates the per-port update calls in that order. -/
def NodeInstance.data_outputs_updated (w : Flow) (s : NodeInstance) :
    List UpdateCall :=
  loop s.outputs
where
  loop : List OutputPortInstance → List UpdateCall
    | [] => []
    | o :: rest =>
      (if o.type_ == "data" then o.updated_val w else []) ++ loop rest

/-- `NodeInstance.input(index)` (lines 219-225): `self.inputs[index].get_val()`,
Python indexing included; IndexError propagates to the caller. -/
def NodeInstance.input (w : Flow) (s : NodeInstance) (index : Int) :
    Except PyErr JData :=
  (pyIndex s.inputs index).map (fun p => p.get_val w)

/-- `NodeInstance.set_output_val(index, val)` (lines 227-231):
`self.outputs[index].set_val(val)`. Returns the new node state and the
trace of update calls emitted (none — `set_val` does not propagate). -/
def NodeInstance.set_output_val (s : NodeInstance) (index : Int) (v : JData) :
    Except PyErr (NodeInstance × List UpdateCall) :=
  match pyResolve s.outputs.length index with
  | some j =>
    match s.outputs.get? j with
    | some o =>
      let r := o.set_val v
      Except.ok ({ s with outputs := s.outputs.set j r.1 }, r.2)
    | none => Except.error PyErr.indexError
  | none => Except.error PyErr.indexError

/-- `NodeInstance.exec_output(index)` (lines 233-236):
`self.outputs[index].exec()`; IndexError propagates. -/
def NodeInstance.exec_output (w : Flow) (s : NodeInstance) (index : Int) :
    Except PyErr (List UpdateCall) :=
  (pyIndex s.outputs index).map (fun o => o.exec w)

/-- `NodeInstance.create_new_input(type_, label, widget_type, widget_name,
widget_pos, pos, config)` (lines 307-325). A fresh `InputPortInstance` is
built (its widget restoring its serialized value from `config` when given,
modelled from the spec's widget contract); `pos < -1` is first shifted by
the current length, `pos == -1` appends, anything else inserts with Python
`list.insert` semantics. Layout and shape updates are UI-only. -/
def NodeInstance.create_new_input (s : NodeInstance) (type_ label : String)
    (widget_type widget_name widget_pos : Option String) (pos : Int)
    (config : Option JData) : NodeInstance :=
  let pi : InputPortInstance :=
    { pid := s.next_pid, type_ := type_, label := label,
      widget_type := widget_type, widget_name := widget_name,
      widget_pos := widget_pos, widget_val := config.getD JData.null,
      connected_port_instances := [] }
  let pos := if pos < -1 then pos + s.inputs.length else pos
  if pos = -1 then
    { s with inputs := s.inputs ++ [pi], next_pid := s.next_pid + 1 }
  else
    { s with inputs := pyListInsert s.inputs pos pi,
             next_pid := s.next_pid + 1 }

/-- `NodeInstance.create_new_output(type_, label, pos)` (lines 367-381),
with the same position handling as `create_new_input`. -/
def NodeInstance.create_new_output (s : NodeInstance) (type_ label : String)
    (pos : Int) : NodeInstance :=
  let pi : OutputPortInstance :=
    { pid := s.next_pid, type_ := type_, label := label,
      val := JData.null, connected_port_instances := [] }
  let pos := if pos < -1 then pos + s.outputs.length else pos
  if pos = -1 then
    { s with outputs := s.outputs ++ [pi], next_pid := s.next_pid + 1 }
  else
    { s with outputs := pyListInsert s.outputs pos pi,
             next_pid := s.next_pid + 1 }

mutual
/-- The per-value cleaning step of `get_special_actions_data`: an `M`
wrapper becomes its `method_name`, a plain callable its `__name__`, a
nested dict recurses, anything else is kept. -/
def cleanedActionVal : SAVal → SAData
  | SAVal.m name => SAData.v (JData.str name)
  | SAVal.callableV name => SAData.v (JData.str name)
  | SAVal.v jv => SAData.v jv
  | SAVal.dict d => SAData.dict (NodeInstance.get_special_actions_data d)
/-- `NodeInstance.get_special_actions_data(actions)` (lines 730-742): copy
the dict, cleaning every value, in insertion order. -/
def NodeInstance.get_special_actions_data : SADict → SADataDict
  | SADict.nil => SADataDict.nil
  | SADict.cons k v rest =>
    SADataDict.cons k (cleanedActionVal v)
      (NodeInstance.get_special_actions_data rest)
end

mutual
/-- The per-entry step of `set_special_actions_data` for the entry under
key `k`: a non-dict value is resolved under `'method'` (`getattr`, raising
AttributeError for a missing name and TypeError for a non-string), kept
under `'data'`, and dropped under any other key (the source's if/elif has
no else); a dict value recurses. `none` means the entry is dropped. -/
def setSpecialActionEntry (methods : String → Bool) (k : String) :
    SAData → Except PyErr (Option SAVal)
  | SAData.v jv =>
    if k = "method" then
      match jv with
      | JData.str name =>
        if methods name then Except.ok (some (SAVal.m name))
        else Except.error PyErr.attributeError
      | _ => Except.error PyErr.typeError
    else if k = "data" then Except.ok (some (SAVal.v jv))
    else Except.ok none
  | SAData.dict d =>
    (NodeInstance.set_special_actions_data methods d).map
      (fun inner => some (SAVal.dict inner))
/-- `NodeInstance.set_special_actions_data(actions_data)` (lines 744-754):
rebuild the live dict entry by entry in iteration order; any exception
raised while resolving an entry propagates (it is not caught here). -/
def NodeInstance.set_special_actions_data (methods : String → Bool) :
    SADataDict → Except PyErr SADict
  | SADataDict.nil => Except.ok SADict.nil
  | SADataDict.cons k v rest =>
    match setSpecialActionEntry methods k v with
    | Except.error e => Except.error e
    | Except.ok none => NodeInstance.set_special_actions_data methods rest
    | Except.ok (some v') =>
      (NodeInstance.set_special_actions_data methods rest).map
        (fun r => SADict.cons k v' r)
end

/-- Creation of the input ports of the config branch of `setup_ports`
(lines 770-776): one `create_new_input` per input description, in order,
passing the widget fields only when `has widget` is set. -/
def setupInputsFromConfig (s : NodeInstance) :
    List InputDesc → NodeInstance
  | [] => s
  | d :: rest =>
    setupInputsFromConfig
      (s.create_new_input d.type_ d.label
        (if d.has_widget then d.widget_type else none)
        (if d.has_widget then d.widget_name else none)
        (if d.has_widget then d.widget_pos else none)
        (-1)
        (if d.has_widget then d.widget_data else none))
      rest

/-- Creation of the output ports of the config branch of `setup_ports`
(lines 778-779). -/
def setupOutputsFromConfig (s : NodeInstance) :
    List OutputDesc → NodeInstance
  | [] => s
  | d :: rest =>
    setupOutputsFromConfig (s.create_new_output d.type_ d.label (-1)) rest

/-- Creation of the default input ports from the template (lines 759-764). -/
def setupInputsFromTemplate (s : NodeInstance) :
    List NodeTemplateInput → NodeInstance
  | [] => s
  | t :: rest =>
    setupInputsFromTemplate
      (s.create_new_input t.type_ t.label t.widget_type t.widget_name
        t.widget_pos (-1) none)
      rest

/-- Creation of the default output ports from the template (lines 766-768). -/
def setupOutputsFromTemplate (s : NodeInstance) :
    List NodeTemplateOutput → NodeInstance
  | [] => s
  | t :: rest =>
    setupOutputsFromTemplate (s.create_new_output t.type_ t.label (-1)) rest

/-- `NodeInstance.setup_ports(inputs_config, outputs_config)` (lines
757-779). The source guards the template branch with
`if not inputs_config and not outputs_config:` — Python falsiness, so both
`None` and an empty list select the template branch. The config branch
iterates the given description lists in order (when reached with `none` for
one list — impossible from `initialized()` — the model iterates the empty
list). -/
def NodeInstance.setup_ports (s : NodeInstance)
    (inputs_config : Option (List InputDesc))
    (outputs_config : Option (List OutputDesc)) : NodeInstance :=
  if (inputs_config.getD []).isEmpty && (outputs_config.getD []).isEmpty then
    setupOutputsFromTemplate
      (setupInputsFromTemplate s s.parent_node.inputs)
      s.parent_node.outputs
  else
    setupOutputsFromConfig
      (setupInputsFromConfig s (inputs_config.getD []))
      (outputs_config.getD [])

/-- The state of a freshly constructed `NodeInstance` (the `__init__` of
lines 20-81, restricted to the modelled attributes): empty port lists, empty
special actions, `temp_state_data = None`, the stored `config`, and a fresh
main widget when the template has one (modelled by its data, at its default
value). UI members are outside the model. -/
def NodeInstance.construct (pn : Node) (config : Option NIDesc) :
    NodeInstance :=
  { parent_node := pn, inputs := [], outputs := [],
    special_actions := SADict.nil,
    main_widget := if pn.has_main_widget then some JData.null else none,
    state_data := JData.null, temp_state_data := JData.null,
    init_config := config, next_pid := 0 }

/-- `NodeInstance.initialized()` (lines 84-110), the end of every manual
initialization: with a stored config it rebuilds the ports from the
config's port lists, feeds `main widget data` to the main widget (KeyError:
pass — modelled by the absent key), resolves the special actions (an
exception raised there — AttributeError for an unresolvable method name —
propagates, aborting the remaining load steps), stages `state data` and
finally applies it through `set_data` when it is not `None`. Without a
config the ports come from the template. The returned pair is the state the
instance is left in together with the exception escaping to the caller, if
any. The trailing design update and `update()` call are UI-only and
state-neutral here (`update` never raises and the base `update_event` does
nothing). -/
def NodeInstance.finish_init (methods : String → Bool) (s : NodeInstance) :
    NodeInstance × Option PyErr :=
  match s.init_config with
  | some cfg =>
    let s1 := s.setup_ports (some cfg.inputs) (some cfg.outputs)
    let s2 :=
      match s1.main_widget, cfg.main_widget_data with
      | some _, some d => { s1 with main_widget := some d }
      | _, _ => s1
    match NodeInstance.set_special_actions_data methods cfg.special_actions with
    | Except.error e => (s2, some e)
    | Except.ok acts =>
      let s3 := { s2 with special_actions := acts,
                          temp_state_data := cfg.state_data }
      let s4 :=
        if s3.temp_state_data ≠ JData.null then
          { s3 with state_data := s3.temp_state_data }
        else s3
      (s4, none)
  | none =>
    let s1 := s.setup_ports none none
    let s2 :=
      if s1.temp_state_data ≠ JData.null then
        { s1 with state_data := s1.temp_state_data }
      else s1
    (s2, none)

/-- Modelled from the spec: the input port's `get_json_data` (PortInstance
not in src; spec section 6 gives the emitted fields). A port has a widget
exactly when `widget_type` is present; only then are the widget fields and
the widget's serialized data emitted. -/
def InputPortInstance.get_json_data (p : InputPortInstance) : InputDesc :=
  { type_ := p.type_, label := p.label,
    has_widget := p.widget_type.isSome,
    widget_type := if p.widget_type.isSome then p.widget_type else none,
    widget_name := if p.widget_type.isSome then p.widget_name else none,
    widget_pos := if p.widget_type.isSome then p.widget_pos else none,
    widget_data := if p.widget_type.isSome then some p.widget_val else none }

/-- Modelled from the spec: the output port's `get_json_data` (PortInstance
not in src; spec section 6): kind tag and label only. -/
def OutputPortInstance.get_json_data (o : OutputPortInstance) : OutputDesc :=
  { type_ := o.type_, label := o.label }

/-- `NodeInstance.get_json_data()` (lines 844-875): the template identity
fields, `main widget data` when a main widget exists, `state data` from
`get_data()`, the cleaned special actions, and the ordered port
descriptions. The screen position is an ephemeral UI attribute outside the
model. -/
def NodeInstance.get_json_data (s : NodeInstance) : NIDesc :=
  { parent_node_title := s.parent_node.title,
    parent_node_type := s.parent_node.type_,
    parent_node_package := s.parent_node.package,
    parent_node_description := s.parent_node.description,
    main_widget_data := s.main_widget,
    state_data := s.state_data,
    special_actions := NodeInstance.get_special_actions_data s.special_actions,
    inputs := s.inputs.map InputPortInstance.get_json_data,
    outputs := s.outputs.map OutputPortInstance.get_json_data }

/-- Remove id `y` from the connection set of the port with id `x`, and id
`x` from the connection set of the port with id `y` (first occurrence,
Python `list.remove`), leaving every other port untouched. -/
def disconnectPorts (w : Flow) (x y : Nat) : Flow :=
  w.map (fun s =>
    { s with
      inputs := s.inputs.map (fun p =>
        if p.pid = x then
          { p with connected_port_instances :=
              p.connected_port_instances.erase y }
        else if p.pid = y then
          { p with connected_port_instances :=
              p.connected_port_instances.erase x }
        else p),
      outputs := s.outputs.map (fun o =>
        if o.pid = x then
          { o with connected_port_instances :=
              o.connected_port_instances.erase y }
        else if o.pid = y then
          { o with connected_port_instances :=
              o.connected_port_instances.erase x }
        else o) })

/-- Add each of the two ports to the other's connection set. -/
def connectPorts (w : Flow) (x y : Nat) : Flow :=
  w.map (fun s =>
    { s with
      inputs := s.inputs.map (fun p =>
        if p.pid = x then
          { p with connected_port_instances :=
              p.connected_port_instances ++ [y] }
        else if p.pid = y then
          { p with connected_port_instances :=
              p.connected_port_instances ++ [x] }
        else p),
      outputs := s.outputs.map (fun o =>
        if o.pid = x then
          { o with connected_port_instances :=
              o.connected_port_instances ++ [y] }
        else if o.pid = y then
          { o with connected_port_instances :=
              o.connected_port_instances ++ [x] }
        else o) })

/-- The connection set currently stored on the port with id `pid` (input or
output), scanned in flow order. -/
def portConns (pid : Nat) : Flow → Option (List Nat)
  | [] => none
  | s :: rest =>
    match findInputIn pid s.inputs with
    | some p => some p.connected_port_instances
    | none =>
      match findOutputIn pid s.outputs with
      | some o => some o.connected_port_instances
      | none => portConns pid rest

/-- Whether the ports with ids `x` and `y` are currently connected, judged
from `x`'s connection set. -/
def gatesConnected (w : Flow) (x y : Nat) : Bool :=
  match portConns x w with
  | some cs => cs.contains y
  | none => false

/-- Modelled from the spec: `Flow.connect_gates` (the Flow collaborator is
not in src). Requesting a (re)connection between two ports toggles the
edge: a pair that is currently connected is severed — each port removed
from the other's connection set — and an unconnected pair is connected
(spec sections 4.2 and 6: severing resolves every connection the port
holds before removal). The mutation is synchronous. -/
def Flow.connect_gates (w : Flow) (x y : Nat) : Flow :=
  if gatesConnected w x y then disconnectPorts w x y else connectPorts w x y

/-- The live connection list of the port with id `pid`, defaulting to the
empty list when the id resolves nowhere. -/
def liveConns (w : Flow) (pid : Nat) : List Nat :=
  (portConns pid w).getD []

/-- The `for cpi in inp.connected_port_instances: self.flow.connect_gates(...)`
loop of `delete_input`/`delete_output` (lines 346-347 and 402-403), with
Python `for` semantics over a list the loop body mutates: an internal index
advances over the live list until it falls off the end. `fuel` bounds the
iteration count (the initial list length suffices, as severing only
shrinks the list). -/
def severConnectionsLoop (pid : Nat) : Flow → Nat → Nat → Flow
  | w, 0, _ => w
  | w, fuel + 1, idx =>
    match (liveConns w pid).get? idx with
    | none => w
    | some cpi => severConnectionsLoop pid (Flow.connect_gates w pid cpi) fuel (idx + 1)

/-- The argument accepted by `delete_input`: a Python `int`, or an
`InputPortInstance` object reference (modelled by the port id). -/
inductive InPortArg where
  | int (i : Int)
  | ref (pid : Nat)

/-- The argument accepted by `delete_output`. -/
inductive OutPortArg where
  | int (i : Int)
  | ref (pid : Nat)

/-- Remove the first input port with id `pid` (`self.inputs.remove(inp)`);
`none` models the ValueError of removing an absent element. -/
def removeFirstInputPid (pid : Nat) :
    List InputPortInstance → Option (List InputPortInstance)
  | [] => none
  | p :: rest =>
    if p.pid = pid then some rest
    else (removeFirstInputPid pid rest).map (p :: ·)

/-- Remove the first output port with id `pid`. -/
def removeFirstOutputPid (pid : Nat) :
    List OutputPortInstance → Option (List OutputPortInstance)
  | [] => none
  | o :: rest =>
    if o.pid = pid then some rest
    else (removeFirstOutputPid pid rest).map (o :: ·)

/-- `NodeInstance.delete_input(i)` of the node at position `k` of the flow
(lines 338-364). The argument is an index (Python indexing, IndexError
propagates) or a port object reference. Every connection of the resolved
port is severed through `flow.connect_gates` by iterating over the port's
live connection list; then `self.inputs.remove(inp)` removes the port from
this instance's list, raising ValueError when the port does not belong to
it. Mutations performed before a raise are kept (the returned flow), and
the raised exception is the second component. Scene/layout bookkeeping is
UI-only. -/
def NodeInstance.delete_input (w : Flow) (k : Nat) (arg : InPortArg) :
    Flow × Option PyErr :=
  match w.get? k with
  | none => (w, some PyErr.indexError)
  | some s =>
    let resolved : Except PyErr Nat :=
      match arg with
      | InPortArg.int i => (pyIndex s.inputs i).map (fun p => p.pid)
      | InPortArg.ref pid => Except.ok pid
    match resolved with
    | Except.error e => (w, some e)
    | Except.ok pid =>
      let w1 := severConnectionsLoop pid w (liveConns w pid).length 0
      match w1.get? k with
      | none => (w1, some PyErr.indexError)
      | some s1 =>
        match removeFirstInputPid pid s1.inputs with
        | some inputs1 => (w1.set k { s1 with inputs := inputs1 }, none)
        | none => (w1, some PyErr.valueError)

/-- `NodeInstance.delete_output(o)` of the node at position `k` of the flow
(lines 394-417), mirroring `delete_input`. -/
def NodeInstance.delete_output (w : Flow) (k : Nat) (arg : OutPortArg) :
    Flow × Option PyErr :=
  match w.get? k with
  | none => (w, some PyErr.indexError)
  | some s =>
    let resolved : Except PyErr Nat :=
      match arg with
      | OutPortArg.int i => (pyIndex s.outputs i).map (fun o => o.pid)
      | OutPortArg.ref pid => Except.ok pid
    match resolved with
    | Except.error e => (w, some e)
    | Except.ok pid =>
      let w1 := severConnectionsLoop pid w (liveConns w pid).length 0
      match w1.get? k with
      | none => (w1, some PyErr.indexError)
      | some s1 =>
        match removeFirstOutputPid pid s1.outputs with
        | some outputs1 => (w1.set k { s1 with outputs := outputs1 }, none)
        | none => (w1, some PyErr.valueError)

/-! Helper lemmas. -/

theorem exceptMap_error_iff {α β : Type} (f : α → β) (e : Except PyErr α)
    (err : PyErr) : e.map f = Except.error err ↔ e = Except.error err := by
  cases e <;> simp [Except.map]

theorem exceptMap_ok_iff {α β : Type} (f : α → β) (e : Except PyErr α) :
    (∃ y, e.map f = Except.ok y) ↔ ∃ x, e = Except.ok x := by
  cases e <;> simp [Except.map]

theorem insertAt_length {α : Type} (l : List α) (x : α) {p : Nat}
    (hp : p ≤ l.length) :
    (l.take p ++ x :: l.drop p).length = l.length + 1 := by
  simp [List.length_take, List.length_drop]
  omega

theorem insertAt_get?_lt {α : Type} (l : List α) (x : α) {p i : Nat}
    (hp : p ≤ l.length) (hi : i < p) :
    (l.take p ++ x :: l.drop p).get? i = l.get? i := by
  have hlen : (l.take p).length = p := by simp [List.length_take]; omega
  have hlt : i < (l.take p).length := by omega
  rw [List.get?_eq_getElem?, List.get?_eq_getElem?, List.getElem?_append,
    if_pos hlt, List.getElem?_take, if_pos hi]

theorem insertAt_get?_self {α : Type} (l : List α) (x : α) {p : Nat}
    (hp : p ≤ l.length) :
    (l.take p ++ x :: l.drop p).get? p = some x := by
  have hlen : (l.take p).length = p := by simp [List.length_take]; omega
  have hnlt : ¬ p < (l.take p).length := by omega
  rw [List.get?_eq_getElem?, List.getElem?_append, if_neg hnlt, hlen,
    Nat.sub_self]
  simp

theorem insertAt_get?_ge {α : Type} (l : List α) (x : α) {p i : Nat}
    (hp : p ≤ l.length) (hi : p ≤ i) :
    (l.take p ++ x :: l.drop p).get? (i + 1) = l.get? i := by
  have hlen : (l.take p).length = p := by simp [List.length_take]; omega
  have hnlt : ¬ i + 1 < (l.take p).length := by omega
  rw [List.get?_eq_getElem?, List.getElem?_append, if_neg hnlt, hlen]
  have hsub : i + 1 - p = (i - p) + 1 := by omega
  rw [hsub, List.getElem?_cons_succ, List.getElem?_drop,
    List.get?_eq_getElem?]
  congr 1
  omega

/-! Shared concrete fixtures used by witnesses and counterexamples. -/

/-- A plain template with no ports and no main widget. -/
def fxNode : Node :=
  { title := "Add", type_ := "std", package := "base", description := "demo" }

/-- A template with a single data output (used for round-trip scenarios). -/
def fxNodeOut : Node :=
  { title := "Src", type_ := "std", package := "base", description := "",
    outputs := [{ type_ := "data", label := "out" }] }

/-- A template whose defaults hold one data input (used for the
`setup_ports` fallback scenario). -/
def fxNodeIn : Node :=
  { title := "Tpl", type_ := "std", package := "base", description := "",
    inputs := [{ type_ := "data", label := "tin" }] }

/-- A sender instance: data output (pid 10, connected to input 21) and an
exec output (pid 11, connected to input 21). -/
def fxSender : NodeInstance :=
  { parent_node := fxNode,
    outputs :=
      [{ pid := 10, type_ := "data", label := "o", val := JData.int 1,
         connected_port_instances := [21] },
       { pid := 11, type_ := "exec", label := "e",
         connected_port_instances := [21] }],
    next_pid := 12 }

/-- A receiver instance: one data input (pid 21) connected to output 10,
with a widget whose current value is `int 7`. -/
def fxReceiver : NodeInstance :=
  { parent_node := fxNode,
    inputs :=
      [{ pid := 21, type_ := "data", label := "i",
         widget_type := some "std line edit", widget_name := some "w",
         widget_pos := some "under", widget_val := JData.int 7,
         connected_port_instances := [10] }],
    next_pid := 22 }

/-- The two-instance flow wiring `fxSender` to `fxReceiver`. -/
def fxFlow : Flow := [fxSender, fxReceiver]

/-! Claim theorems. -/

/-- C2: for every node instance and every triggering input index, `update`
never lets an exception of the node-defined `update_event` escape to its
caller: the exception is caught at the `update` boundary, the log carries
the node's identity with the triggering input index (the entry written on
entering `update`) and, on an exception, the node's identity with the
exception; the node is left in whatever partial state the failed
`update_event` produced. -/
theorem C2_update_never_raises
    (update_event : Int → NodeInstance → NodeInstance × Option String)
    (input_called : Int) (s : NodeInstance) :
    (NodeInstance.update update_event input_called s).raised = none ∧
    (NodeInstance.update update_event input_called s).state =
      (update_event input_called s).1 ∧
    ["update in", s.parent_node.title, "on input", toString input_called] ∈
      (NodeInstance.update update_event input_called s).log ∧
    (∀ e, (update_event input_called s).2 = some e →
      ["EXCEPTION IN", s.parent_node.title, "NI:", e] ∈
        (NodeInstance.update update_event input_called s).log) := by
  unfold NodeInstance.update
  rcases hue : update_event input_called s with ⟨s', oe⟩
  cases oe <;> simp [hue]

/-- Witness for C2 at a concrete node and an `update_event` that raises. -/
theorem C2_update_never_raises_witness :
    (NodeInstance.update (fun _ st => (st, some "boom")) 3 fxSender).raised
      = none ∧
    ["EXCEPTION IN", fxSender.parent_node.title, "NI:", "boom"] ∈
      (NodeInstance.update (fun _ st => (st, some "boom")) 3 fxSender).log :=
  ⟨(C2_update_never_raises (fun _ st => (st, some "boom")) 3 fxSender).1,
   (C2_update_never_raises (fun _ st => (st, some "boom")) 3 fxSender).2.2.2
     "boom" rfl⟩

theorem input_error_iff (w : Flow) (s : NodeInstance) (i : Int) :
    NodeInstance.input w s i = Except.error PyErr.indexError ↔
      ¬ pyValid s.inputs.length i := by
  unfold NodeInstance.input
  rw [exceptMap_error_iff, pyIndex_error_iff]

theorem input_ok_iff (w : Flow) (s : NodeInstance) (i : Int) :
    (∃ v, NodeInstance.input w s i = Except.ok v) ↔
      pyValid s.inputs.length i := by
  unfold NodeInstance.input
  rw [exceptMap_ok_iff, pyIndex_isOk_iff]

theorem exec_output_error_iff (w : Flow) (s : NodeInstance) (i : Int) :
    NodeInstance.exec_output w s i = Except.error PyErr.indexError ↔
      ¬ pyValid s.outputs.length i := by
  unfold NodeInstance.exec_output
  rw [exceptMap_error_iff, pyIndex_error_iff]

theorem exec_output_ok_iff (w : Flow) (s : NodeInstance) (i : Int) :
    (∃ c, NodeInstance.exec_output w s i = Except.ok c) ↔
      pyValid s.outputs.length i := by
  unfold NodeInstance.exec_output
  rw [exceptMap_ok_iff, pyIndex_isOk_iff]

theorem set_output_val_error_iff (s : NodeInstance) (i : Int) (v : JData) :
    NodeInstance.set_output_val s i v = Except.error PyErr.indexError ↔
      ¬ pyValid s.outputs.length i := by
  match hres : pyResolve s.outputs.length i with
  | some j =>
    have hval : pyValid s.outputs.length i :=
      (pyResolve_isSome_iff _ _).mp (by rw [hres]; rfl)
    have hj : j < s.outputs.length := pyResolve_lt hres
    have hget : s.outputs.get? j = some (s.outputs.get ⟨j, hj⟩) :=
      List.get?_eq_get hj
    rw [List.get?_eq_getElem?] at hget
    simp [NodeInstance.set_output_val, hres, hget, hval]
  | none =>
    have hval : ¬ pyValid s.outputs.length i := by
      intro hv
      have := (pyResolve_isSome_iff s.outputs.length i).mpr hv
      rw [hres] at this
      simp at this
    simp [NodeInstance.set_output_val, hres, hval]

theorem set_output_val_ok_iff (s : NodeInstance) (i : Int) (v : JData) :
    (∃ r, NodeInstance.set_output_val s i v = Except.ok r) ↔
      pyValid s.outputs.length i := by
  match hres : pyResolve s.outputs.length i with
  | some j =>
    have hval : pyValid s.outputs.length i :=
      (pyResolve_isSome_iff _ _).mp (by rw [hres]; rfl)
    have hj : j < s.outputs.length := pyResolve_lt hres
    have hget : s.outputs.get? j = some (s.outputs.get ⟨j, hj⟩) :=
      List.get?_eq_get hj
    rw [List.get?_eq_getElem?] at hget
    simp [NodeInstance.set_output_val, hres, hget, hval]
  | none =>
    have hval : ¬ pyValid s.outputs.length i := by
      intro hv
      have := (pyResolve_isSome_iff s.outputs.length i).mpr hv
      rw [hres] at this
      simp at this
    simp [NodeInstance.set_output_val, hres, hval]

/-- C4: `input`, `set_output_val` and `exec_output` fail with an
out-of-range IndexError, propagated to the caller, exactly when the given
index is not a valid port index — where a valid index for a port list of
length `n` is one Python accepts, `-n ≤ i < n` (see C10 for the meaning of
the negative ones). Each call raises if and only if the index is invalid. -/
theorem C4_invalid_index_raises (w : Flow) (s : NodeInstance) (i : Int)
    (v : JData) :
    (NodeInstance.input w s i = Except.error PyErr.indexError ↔
      ¬ pyValid s.inputs.length i) ∧
    ((∃ r, NodeInstance.input w s i = Except.ok r) ↔
      pyValid s.inputs.length i) ∧
    (NodeInstance.set_output_val s i v = Except.error PyErr.indexError ↔
      ¬ pyValid s.outputs.length i) ∧
    ((∃ r, NodeInstance.set_output_val s i v = Except.ok r) ↔
      pyValid s.outputs.length i) ∧
    (NodeInstance.exec_output w s i = Except.error PyErr.indexError ↔
      ¬ pyValid s.outputs.length i) ∧
    ((∃ r, NodeInstance.exec_output w s i = Except.ok r) ↔
      pyValid s.outputs.length i) :=
  ⟨input_error_iff w s i, input_ok_iff w s i,
   set_output_val_error_iff s i v, set_output_val_ok_iff s i v,
   exec_output_error_iff w s i, exec_output_ok_iff w s i⟩

/-- C10: negative indices are accepted at the public interface with Python
semantics, separately per port list: for `-n ≤ i < 0` over the input list,
`input(i)` returns the effective value of the input port at position
`n + i`; for `-m ≤ i < 0` over the output list, `set_output_val(i, v)` and
`exec_output(i)` address the output port at position `m + i` — each
conclusion depends only on its own list's length. -/
theorem C10_negative_indexing (w : Flow) (s : NodeInstance) (i : Int)
    (hi : i < 0) :
    (∀ p : InputPortInstance, -(s.inputs.length : Int) ≤ i →
      s.inputs.get? (i + s.inputs.length).toNat = some p →
      NodeInstance.input w s i = Except.ok (p.get_val w)) ∧
    (∀ (o : OutputPortInstance) (v : JData),
      -(s.outputs.length : Int) ≤ i →
      s.outputs.get? (i + s.outputs.length).toNat = some o →
      NodeInstance.set_output_val s i v =
        Except.ok
          ({ s with
              outputs := s.outputs.set (i + s.outputs.length).toNat
                { o with val := v } },
           []) ∧
      NodeInstance.exec_output w s i = Except.ok (o.exec w)) := by
  constructor
  · intro p hni hp
    unfold NodeInstance.input
    rw [pyIndex_ok_of_get? (pyResolve_neg hi hni) hp]
    rfl
  · intro o v hno ho
    refine ⟨?_, ?_⟩
    · have ho' := ho
      rw [List.get?_eq_getElem?] at ho'
      simp [NodeInstance.set_output_val, pyResolve_neg hi hno, ho',
        OutputPortInstance.set_val]
    · unfold NodeInstance.exec_output
      rw [pyIndex_ok_of_get? (pyResolve_neg hi hno) ho]
      rfl

/-- An instance with one connected data input (pid 21, fed by output 10 of
`fxSender`) and one unconnected exec output (pid 31). -/
def fxBoth : NodeInstance :=
  { parent_node := fxNode,
    inputs :=
      [{ pid := 21, type_ := "data", label := "i",
         widget_type := some "std line edit", widget_name := some "w",
         widget_pos := some "under", widget_val := JData.int 7,
         connected_port_instances := [10] }],
    outputs :=
      [{ pid := 31, type_ := "exec", label := "e",
         connected_port_instances := [] }],
    next_pid := 32 }

/-- The flow wiring `fxSender`'s data output to `fxBoth`'s input. -/
def fxFlowBoth : Flow := [fxSender, fxBoth]

/-- Witness for C10, exercising the per-list decoupling on asymmetric
nodes: `input(-1)` on `fxBoth` (one input) resolves the connection to
`fxSender`'s stored value, and `exec_output(-2)` on `fxSender` (two
outputs, NO inputs — the input-side bound is irrelevant) addresses output
position 0 and fans out to the receiver. -/
theorem C10_negative_indexing_witness :
    NodeInstance.input fxFlowBoth fxBoth (-1) = Except.ok (JData.int 1) ∧
    NodeInstance.exec_output fxFlow fxSender (-2) =
      Except.ok [{ node := 1, input_called := 0 }] := by
  have h1 := C10_negative_indexing fxFlowBoth fxBoth (-1) (by decide)
  have h2 := C10_negative_indexing fxFlow fxSender (-2) (by decide)
  constructor
  · have hin := h1.1
      { pid := 21, type_ := "data", label := "i",
        widget_type := some "std line edit", widget_name := some "w",
        widget_pos := some "under", widget_val := JData.int 7,
        connected_port_instances := [10] }
      (by decide) (by rfl)
    rw [hin]
    rfl
  · have hout := (h2.2
      { pid := 10, type_ := "data", label := "o", val := JData.int 1,
        connected_port_instances := [21] }
      JData.null (by decide) (by rfl)).2
    rw [hout]
    rfl

/-- C6: `set_output_val(i, value)` on a valid output index only stores the
value on output port `i` and performs no propagation: the emitted trace of
update calls is empty, the input list and every other member of the node
state are untouched, the output list keeps its length, and every output
port other than `i` is unchanged. -/
theorem C6_set_output_val_frame (s : NodeInstance) (i : Int) (v : JData)
    (j : Nat) (o : OutputPortInstance)
    (hres : pyResolve s.outputs.length i = some j)
    (ho : s.outputs.get? j = some o) :
    NodeInstance.set_output_val s i v =
      Except.ok
        ({ s with outputs := s.outputs.set j { o with val := v } }, []) ∧
    ({ s with outputs := s.outputs.set j { o with val := v } } :
        NodeInstance).inputs = s.inputs ∧
    ({ s with outputs := s.outputs.set j { o with val := v } } :
        NodeInstance).special_actions = s.special_actions ∧
    ({ s with outputs := s.outputs.set j { o with val := v } } :
        NodeInstance).state_data = s.state_data ∧
    (s.outputs.set j { o with val := v }).length = s.outputs.length ∧
    (s.outputs.set j { o with val := v }).get? j =
      some { o with val := v } ∧
    (∀ j', j' ≠ j →
      (s.outputs.set j { o with val := v }).get? j' = s.outputs.get? j') := by
  have hj : j < s.outputs.length := pyResolve_lt hres
  have ho' := ho
  rw [List.get?_eq_getElem?] at ho'
  refine ⟨?_, rfl, rfl, rfl, List.length_set _ _ _, ?_, ?_⟩
  · simp [NodeInstance.set_output_val, hres, ho',
      OutputPortInstance.set_val]
  · rw [List.get?_eq_getElem?, List.getElem?_set_self]
    exact hj
  · intro j' hne
    rw [List.get?_eq_getElem?, List.get?_eq_getElem?,
      List.getElem?_set_ne (Ne.symm hne)]

/-- Witness for C6 at `fxSender`, storing `int 9` on output 0. -/
theorem C6_set_output_val_frame_witness :
    NodeInstance.set_output_val fxSender 0 (JData.int 9) =
      Except.ok
        ({ fxSender with
            outputs := fxSender.outputs.set 0
              { pid := 10, type_ := "data", label := "o",
                val := JData.int 9, connected_port_instances := [21] } },
         []) ∧
    (fxSender.outputs.set 0
      { pid := 10, type_ := "data", label := "o", val := JData.int 9,
        connected_port_instances := [21] }).get? 1 = fxSender.outputs.get? 1 := by
  have h := C6_set_output_val_frame fxSender 0 (JData.int 9) 0
    { pid := 10, type_ := "data", label := "o", val := JData.int 1,
      connected_port_instances := [21] }
    (by rfl) (by rfl)
  exact ⟨h.1, h.2.2.2.2.2.2 1 (by decide)⟩

/-- C7: `create_new_input`/`create_new_output` append the new port at the
end of the port list when no position is given (the `pos = -1` default),
and insert it at the given index otherwise: for an insertion index
`p ≤ length` of the respective list — the input and output conclusions
each depend only on their own list's length — ports at positions below `p`
keep their positions, the new port sits at position `p`, and every port at
a position `≥ p` moves up by one. -/
theorem C7_create_port_positions (s : NodeInstance)
    (t lab : String) (wt wn wp : Option String) (c : Option JData)
    (ot lo : String) (p : Nat) :
    (s.create_new_input t lab wt wn wp (-1) c).inputs =
      s.inputs ++
        [{ pid := s.next_pid, type_ := t, label := lab, widget_type := wt,
           widget_name := wn, widget_pos := wp,
           widget_val := c.getD JData.null,
           connected_port_instances := [] }] ∧
    (s.create_new_output ot lo (-1)).outputs =
      s.outputs ++
        [{ pid := s.next_pid, type_ := ot, label := lo, val := JData.null,
           connected_port_instances := [] }] ∧
    (p ≤ s.inputs.length →
      (∀ idx, idx < p →
        (s.create_new_input t lab wt wn wp (p : Int) c).inputs.get? idx =
          s.inputs.get? idx) ∧
      ((s.create_new_input t lab wt wn wp (p : Int) c).inputs.get? p =
        some { pid := s.next_pid, type_ := t, label := lab,
               widget_type := wt, widget_name := wn, widget_pos := wp,
               widget_val := c.getD JData.null,
               connected_port_instances := [] }) ∧
      (∀ idx, p ≤ idx →
        (s.create_new_input t lab wt wn wp (p : Int) c).inputs.get?
            (idx + 1) =
          s.inputs.get? idx)) ∧
    (p ≤ s.outputs.length →
      (∀ idx, idx < p →
        (s.create_new_output ot lo (p : Int)).outputs.get? idx =
          s.outputs.get? idx) ∧
      ((s.create_new_output ot lo (p : Int)).outputs.get? p =
        some { pid := s.next_pid, type_ := ot, label := lo,
               val := JData.null, connected_port_instances := [] }) ∧
      (∀ idx, p ≤ idx →
        (s.create_new_output ot lo (p : Int)).outputs.get? (idx + 1) =
          s.outputs.get? idx)) := by
  refine ⟨?_, ?_, ?_, ?_⟩
  · simp only [NodeInstance.create_new_input]
    norm_num
  · simp only [NodeInstance.create_new_output]
    norm_num
  · intro hpi
    have hins : (s.create_new_input t lab wt wn wp (p : Int) c).inputs =
        s.inputs.take p ++
          ({ pid := s.next_pid, type_ := t, label := lab,
             widget_type := wt, widget_name := wn, widget_pos := wp,
             widget_val := c.getD JData.null,
             connected_port_instances := [] } : InputPortInstance) ::
          s.inputs.drop p := by
      have h1 : ¬ ((p : Int) < -1) := by omega
      have h2 : ¬ ((p : Int) = -1) := by omega
      have h3 : pyInsertIdx s.inputs.length (p : Int) = p := by
        rw [pyInsertIdx_of_nonneg (by omega) (by omega)]
        omega
      simp only [NodeInstance.create_new_input, h1, if_false, h2,
        pyListInsert, h3]
    refine ⟨?_, ?_, ?_⟩
    · intro idx hidx
      rw [hins]
      exact insertAt_get?_lt _ _ hpi hidx
    · rw [hins]
      exact insertAt_get?_self _ _ hpi
    · intro idx hidx
      rw [hins]
      exact insertAt_get?_ge _ _ hpi hidx
  · intro hpo
    have hout : (s.create_new_output ot lo (p : Int)).outputs =
        s.outputs.take p ++
          ({ pid := s.next_pid, type_ := ot, label := lo,
             val := JData.null,
             connected_port_instances := [] } : OutputPortInstance) ::
          s.outputs.drop p := by
      have h1 : ¬ ((p : Int) < -1) := by omega
      have h2 : ¬ ((p : Int) = -1) := by omega
      have h3 : pyInsertIdx s.outputs.length (p : Int) = p := by
        rw [pyInsertIdx_of_nonneg (by omega) (by omega)]
        omega
      simp only [NodeInstance.create_new_output, h1, if_false, h2,
        pyListInsert, h3]
    refine ⟨?_, ?_, ?_⟩
    · intro idx hidx
      rw [hout]
      exact insertAt_get?_lt _ _ hpo hidx
    · rw [hout]
      exact insertAt_get?_self _ _ hpo
    · intro idx hidx
      rw [hout]
      exact insertAt_get?_ge _ _ hpo hidx

/-- Witness for C7 at `fxSender` (two outputs, NO inputs), exercising the
per-list decoupling: inserting an output at position 3 is outside the
empty input list's range but addresses the output list fine at positions
0..2 — here position 1: the old second output moves to position 2 —
while the input-side conclusions are exercised at position 0 of the empty
input list. -/
theorem C7_create_port_positions_witness :
    (fxSender.create_new_input "data" "x" none none none (-1) none).inputs =
      [{ pid := 12, type_ := "data", label := "x", widget_type := none,
         widget_name := none, widget_pos := none, widget_val := JData.null,
         connected_port_instances := [] }] ∧
    (fxSender.create_new_input "data" "x" none none none 0 none
      ).inputs.get? 0 =
      some { pid := 12, type_ := "data", label := "x", widget_type := none,
             widget_name := none, widget_pos := none,
             widget_val := JData.null, connected_port_instances := [] } ∧
    (fxSender.create_new_output "exec" "n" 1).outputs.get? 2 =
      fxSender.outputs.get? 1 := by
  have h := C7_create_port_positions fxSender "data" "x" none none none
    none "exec" "n" 0
  have h1 := C7_create_port_positions fxSender "data" "x" none none none
    none "exec" "n" 1
  exact ⟨h.1, (h.2.2.1 (by decide)).2.1,
    (h1.2.2.2 (by decide)).2.2 1 (by decide)⟩

theorem data_outputs_updated_loop_eq (w : Flow) :
    ∀ outs : List OutputPortInstance,
      NodeInstance.data_outputs_updated.loop w outs =
        (outs.filter (fun q => q.type_ == "data")).flatMap
          (fun q => q.updated_val w)
  | [] => rfl
  | o :: rest => by
    rw [NodeInstance.data_outputs_updated.loop, List.filter_cons]
    by_cases hd : (o.type_ == "data") = true
    · rw [if_pos hd, if_pos hd, List.flatMap_cons,
        data_outputs_updated_loop_eq w rest]
    · rw [if_neg hd, if_neg hd, data_outputs_updated_loop_eq w rest]
      simp

theorem data_outputs_updated_eq (w : Flow) (s : NodeInstance) :
    NodeInstance.data_outputs_updated w s =
      (s.outputs.filter (fun q => q.type_ == "data")).flatMap
        (fun q => q.updated_val w) :=
  data_outputs_updated_loop_eq w s.outputs

theorem mem_updated_val {w : Flow} {o : OutputPortInstance}
    {pid rn ri : Nat} (hp : pid ∈ o.connected_port_instances)
    (hf : findInputOwner w pid = some (rn, ri)) :
    ({ node := rn, input_called := ri } : UpdateCall) ∈ o.updated_val w :=
  List.mem_filterMap.mpr ⟨pid, hp, by rw [hf]; rfl⟩

theorem mem_data_outputs_updated {w : Flow} {s : NodeInstance}
    {o : OutputPortInstance} {c : UpdateCall}
    (ho : o ∈ s.outputs) (hd : o.type_ = "data")
    (hc : c ∈ o.updated_val w) :
    c ∈ NodeInstance.data_outputs_updated w s := by
  rw [data_outputs_updated_eq]
  exact List.mem_flatMap.mpr
    ⟨o, List.mem_filter.mpr ⟨ho, by simp [hd]⟩, hc⟩

theorem idxOfInputPid_spec (pid : Nat) :
    ∀ (ps : List InputPortInstance) (i : Nat),
      idxOfInputPid pid ps = some i →
      ∃ p, ps.get? i = some p ∧ p.pid = pid
  | [], i => by simp [idxOfInputPid]
  | q :: rest, i => by
    intro h
    unfold idxOfInputPid at h
    by_cases hq : q.pid = pid
    · rw [if_pos hq] at h
      cases h
      exact ⟨q, rfl, hq⟩
    · rw [if_neg hq] at h
      match hrec : idxOfInputPid pid rest with
      | none => rw [hrec] at h; simp at h
      | some j =>
        rw [hrec] at h
        simp at h
        subst h
        obtain ⟨p, hp, hpid⟩ := idxOfInputPid_spec pid rest j hrec
        exact ⟨p, hp, hpid⟩

theorem findInputOwnerAux_spec (pid : Nat) :
    ∀ (w : Flow) (base n i : Nat),
      findInputOwnerAux pid w base = some (n, i) →
      base ≤ n ∧
      ∃ s p, w.get? (n - base) = some s ∧ s.inputs.get? i = some p ∧
        p.pid = pid
  | [], base, n, i => by simp [findInputOwnerAux]
  | s :: rest, base, n, i => by
    intro h
    unfold findInputOwnerAux at h
    match hidx : idxOfInputPid pid s.inputs with
    | some j =>
      rw [hidx] at h
      cases h
      obtain ⟨p, hp, hpid⟩ := idxOfInputPid_spec pid s.inputs _ hidx
      exact ⟨le_refl _, s, p, by simp, hp, hpid⟩
    | none =>
      rw [hidx] at h
      obtain ⟨hle, s', p, hget, hp, hpid⟩ :=
        findInputOwnerAux_spec pid rest (base + 1) n i h
      refine ⟨by omega, s', p, ?_, hp, hpid⟩
      have hsub : n - base = (n - (base + 1)) + 1 := by omega
      rw [hsub]
      exact hget

theorem findInputOwner_spec {w : Flow} {pid n i : Nat}
    (h : findInputOwner w pid = some (n, i)) :
    ∃ s p, w.get? n = some s ∧ s.inputs.get? i = some p ∧ p.pid = pid := by
  obtain ⟨_, s, p, hget, hp, hpid⟩ := findInputOwnerAux_spec pid w 0 n i h
  exact ⟨s, p, by simpa using hget, hp, hpid⟩

theorem findInputOwnerAux_set_outputs (pid : Nat) :
    ∀ (w : Flow) (k : Nat) (s s' : NodeInstance) (base : Nat),
      w.get? k = some s → s'.inputs = s.inputs →
      findInputOwnerAux pid (w.set k s') base = findInputOwnerAux pid w base
  | [], k, s, s', base => by simp
  | x :: rest, k, s, s', base => by
    intro hk hinp
    cases k with
    | zero =>
      have hx : x = s := by simpa using hk
      subst hx
      show findInputOwnerAux pid (s' :: rest) base = _
      unfold findInputOwnerAux
      rw [hinp]
    | succ k' =>
      have hk' : rest.get? k' = some s := by simpa using hk
      show findInputOwnerAux pid (x :: rest.set k' s') base = _
      unfold findInputOwnerAux
      rw [findInputOwnerAux_set_outputs pid rest k' s s' (base + 1) hk' hinp]

theorem findInputOwner_set_outputs {w : Flow} {k : Nat}
    {s s' : NodeInstance} (pid : Nat) (hk : w.get? k = some s)
    (hinp : s'.inputs = s.inputs) :
    findInputOwner (w.set k s') pid = findInputOwner w pid :=
  findInputOwnerAux_set_outputs pid w k s s' 0 hk hinp

theorem findOutputVal_set (pid : Nat) (o' : OutputPortInstance) :
    ∀ (w : Flow) (k : Nat) (s' : NodeInstance),
      k < w.length →
      (w.take k).all (fun nd => (findOutputIn pid nd.outputs).isNone) =
        true →
      findOutputIn pid s'.outputs = some o' →
      findOutputVal pid (w.set k s') = some o'.val
  | [], k, s' => by simp
  | x :: rest, k, s' => by
    intro hk hall hfind
    cases k with
    | zero =>
      show findOutputVal pid (s' :: rest) = some o'.val
      unfold findOutputVal
      rw [hfind]
    | succ k' =>
      have hall2 : (findOutputIn pid x.outputs).isNone = true ∧
          (rest.take k').all
            (fun nd => (findOutputIn pid nd.outputs).isNone) = true := by
        have h := hall
        rw [show (x :: rest).take (k' + 1) = x :: rest.take k' from rfl,
          List.all_cons] at h
        simpa using h
      obtain ⟨hx, hrest⟩ := hall2
      show findOutputVal pid (x :: rest.set k' s') = some o'.val
      unfold findOutputVal
      match hfx : findOutputIn pid x.outputs with
      | some q => rw [hfx] at hx; simp at hx
      | none =>
        exact findOutputVal_set pid o' rest k' s' (by simpa using hk)
          hrest hfind

/-- The flow after storing `v` on output `oi` of the node at position `k`
(the node state `s` with output `o` at that position). -/
def flowAfterSet (w : Flow) (k oi : Nat) (s : NodeInstance)
    (o : OutputPortInstance) (v : JData) : Flow :=
  w.set k { s with outputs := s.outputs.set oi { o with val := v } }

theorem get?_set_flow {w : Flow} {k : Nat} {s : NodeInstance}
    (s' : NodeInstance) (n : Nat) (hk : w.get? k = some s) :
    (w.set k s').get? n = if n = k then some s' else w.get? n := by
  have hklen : k < w.length := by
    by_contra hge
    rw [List.get?_eq_getElem?, List.getElem?_eq_none (by omega)] at hk
    exact absurd hk (by simp)
  by_cases hn : n = k
  · subst hn
    rw [if_pos rfl, List.get?_eq_getElem?, List.getElem?_set_self hklen]
  · rw [if_neg hn, List.get?_eq_getElem?, List.get?_eq_getElem?,
      List.getElem?_set_ne (fun h => hn h.symm)]

/-- C5: `data_outputs_updated` notifies exactly the Data outputs, visited
in stored port-list order (conclusion 1: the trace is the concatenation, in
list order, of the fan-outs of the `'data'`-tagged outputs — Exec outputs
contribute nothing); the triggering input index passed to a receiver is the
index of the connected port on the receiving side (conclusion 2); and for a
connected Data pair, `set_output_val` on the sender followed by
`data_outputs_updated` puts the receiver/index call in the trace and makes
the receiver's `input` at that index return the new value (conclusions
3-5). -/
theorem C5_data_outputs_updated_fanout
    (w : Flow) (k oi rn ri pid : Nat) (s : NodeInstance)
    (o : OutputPortInstance) (p : InputPortInstance) (v : JData)
    (hk : w.get? k = some s)
    (ho : s.outputs.get? oi = some o)
    (hdata : o.type_ = "data")
    (hconn : pid ∈ o.connected_port_instances)
    (hown : findInputOwner w pid = some (rn, ri))
    (hp : flowInput w rn ri = some p)
    (hhead : p.connected_port_instances.head? = some o.pid)
    (huniq : findOutputIn o.pid (s.outputs.set oi { o with val := v }) =
      some { o with val := v })
    (hbefore : (w.take k).all
      (fun nd => (findOutputIn o.pid nd.outputs).isNone) = true) :
    (∀ (w₀ : Flow) (s₀ : NodeInstance),
      NodeInstance.data_outputs_updated w₀ s₀ =
        (s₀.outputs.filter (fun q => q.type_ == "data")).flatMap
          (fun q => q.updated_val w₀)) ∧
    (∀ (pid' n i : Nat), findInputOwner w pid' = some (n, i) →
      ∃ s₁ q, w.get? n = some s₁ ∧ s₁.inputs.get? i = some q ∧
        q.pid = pid') ∧
    NodeInstance.set_output_val s (oi : Int) v =
      Except.ok
        ({ s with outputs := s.outputs.set oi { o with val := v } }, []) ∧
    ({ node := rn, input_called := ri } : UpdateCall) ∈
      NodeInstance.data_outputs_updated (flowAfterSet w k oi s o v)
        { s with outputs := s.outputs.set oi { o with val := v } } ∧
    (∀ r, (flowAfterSet w k oi s o v).get? rn = some r →
      NodeInstance.input (flowAfterSet w k oi s o v) r (ri : Int) =
        Except.ok v) := by
  have hoi : oi < s.outputs.length := by
    by_contra hge
    rw [List.get?_eq_getElem?, List.getElem?_eq_none (by omega)] at ho
    exact absurd ho (by simp)
  have hklen : k < w.length := by
    by_contra hge
    rw [List.get?_eq_getElem?, List.getElem?_eq_none (by omega)] at hk
    exact absurd hk (by simp)
  refine ⟨data_outputs_updated_eq, ?_, ?_, ?_, ?_⟩
  · intro pid' n i h
    exact findInputOwner_spec h
  · have ho' := ho
    rw [List.get?_eq_getElem?] at ho'
    simp [NodeInstance.set_output_val, pyResolve_nonneg hoi, ho',
      OutputPortInstance.set_val]
  · have hmemo : ({ o with val := v } : OutputPortInstance) ∈
        s.outputs.set oi { o with val := v } :=
      List.get?_mem (by
        rw [List.get?_eq_getElem?, List.getElem?_set_self hoi])
    have hfio : findInputOwner (flowAfterSet w k oi s o v) pid =
        findInputOwner w pid :=
      findInputOwner_set_outputs pid hk rfl
    exact mem_data_outputs_updated hmemo hdata
      (mem_updated_val hconn (by rw [hfio]; exact hown))
  · intro r hr
    have hrget : (flowAfterSet w k oi s o v).get? rn =
        if rn = k then
          some { s with outputs := s.outputs.set oi { o with val := v } }
        else w.get? rn := get?_set_flow _ rn hk
    have hrinp : r.inputs.get? ri = some p := by
      by_cases hrk : rn = k
      · subst hrk
        rw [hrget, if_pos rfl] at hr
        cases hr
        have : flowInput w rn ri = (w.get? rn).bind
            (fun s₂ => s₂.inputs.get? ri) := rfl
        rw [this, hk] at hp
        simpa using hp
      · rw [hrget, if_neg hrk] at hr
        have : flowInput w rn ri = (w.get? rn).bind
            (fun s₂ => s₂.inputs.get? ri) := rfl
        rw [this, hr] at hp
        simpa using hp
    have hrilen : ri < r.inputs.length := by
      by_contra hge
      rw [List.get?_eq_getElem?, List.getElem?_eq_none (by omega)] at hrinp
      exact absurd hrinp (by simp)
    have hval : findOutputVal o.pid (flowAfterSet w k oi s o v) = some v :=
      findOutputVal_set o.pid { o with val := v } w k _ hklen hbefore huniq
    unfold NodeInstance.input
    rw [pyIndex_ok_of_get? (pyResolve_nonneg hrilen) hrinp]
    show Except.ok (p.get_val (flowAfterSet w k oi s o v)) = Except.ok v
    unfold InputPortInstance.get_val
    rw [hhead]
    simp [hval]

/-- Witness for C5 in the two-node flow `fxFlow`: the sender's data output
(pid 10) feeds the receiver's input (pid 21, index 0 of node 1); storing
`int 9` and fanning out notifies node 1 at input 0, whose `input(0)` then
reads `int 9`. -/
theorem C5_data_outputs_updated_fanout_witness :
    ({ node := 1, input_called := 0 } : UpdateCall) ∈
      NodeInstance.data_outputs_updated
        (flowAfterSet fxFlow 0 0 fxSender
          { pid := 10, type_ := "data", label := "o", val := JData.int 1,
            connected_port_instances := [21] } (JData.int 9))
        { fxSender with
            outputs := fxSender.outputs.set 0
              { pid := 10, type_ := "data", label := "o",
                val := JData.int 9, connected_port_instances := [21] } } ∧
    NodeInstance.input
      (flowAfterSet fxFlow 0 0 fxSender
        { pid := 10, type_ := "data", label := "o", val := JData.int 1,
          connected_port_instances := [21] } (JData.int 9))
      fxReceiver 0 = Except.ok (JData.int 9) := by
  have h := C5_data_outputs_updated_fanout fxFlow 0 0 1 0 21 fxSender
    { pid := 10, type_ := "data", label := "o", val := JData.int 1,
      connected_port_instances := [21] }
    { pid := 21, type_ := "data", label := "i",
      widget_type := some "std line edit", widget_name := some "w",
      widget_pos := some "under", widget_val := JData.int 7,
      connected_port_instances := [10] }
    (JData.int 9) rfl rfl rfl (by decide) rfl rfl rfl rfl rfl
  exact ⟨h.2.2.2.1, h.2.2.2.2 fxReceiver rfl⟩

/-- The input port instance created from a persisted input description
(the port `create_new_input` builds in the config branch of
`setup_ports`). -/
def descInput (pid : Nat) (d : InputDesc) : InputPortInstance :=
  { pid := pid, type_ := d.type_, label := d.label,
    widget_type := if d.has_widget then d.widget_type else none,
    widget_name := if d.has_widget then d.widget_name else none,
    widget_pos := if d.has_widget then d.widget_pos else none,
    widget_val := (if d.has_widget then d.widget_data else none).getD
      JData.null,
    connected_port_instances := [] }

/-- The ordered input port list rebuilt from a description list, with
consecutive fresh ids starting at `pid`. -/
def buildInputs (pid : Nat) : List InputDesc → List InputPortInstance
  | [] => []
  | d :: rest => descInput pid d :: buildInputs (pid + 1) rest

/-- The output port instance created from a persisted output description. -/
def descOutput (pid : Nat) (d : OutputDesc) : OutputPortInstance :=
  { pid := pid, type_ := d.type_, label := d.label, val := JData.null,
    connected_port_instances := [] }

/-- The ordered output port list rebuilt from a description list. -/
def buildOutputs (pid : Nat) : List OutputDesc → List OutputPortInstance
  | [] => []
  | d :: rest => descOutput pid d :: buildOutputs (pid + 1) rest

theorem create_new_input_append (s : NodeInstance) (d : InputDesc) :
    s.create_new_input d.type_ d.label
      (if d.has_widget then d.widget_type else none)
      (if d.has_widget then d.widget_name else none)
      (if d.has_widget then d.widget_pos else none) (-1)
      (if d.has_widget then d.widget_data else none) =
    { s with inputs := s.inputs ++ [descInput s.next_pid d],
             next_pid := s.next_pid + 1 } := by
  simp only [NodeInstance.create_new_input, descInput]
  norm_num

theorem create_new_output_append (s : NodeInstance) (d : OutputDesc) :
    s.create_new_output d.type_ d.label (-1) =
    { s with outputs := s.outputs ++ [descOutput s.next_pid d],
             next_pid := s.next_pid + 1 } := by
  simp only [NodeInstance.create_new_output, descOutput]
  norm_num

theorem setupInputsFromConfig_eq :
    ∀ (descs : List InputDesc) (s : NodeInstance),
      setupInputsFromConfig s descs =
        { s with inputs := s.inputs ++ buildInputs s.next_pid descs,
                 next_pid := s.next_pid + descs.length }
  | [], s => by simp [setupInputsFromConfig, buildInputs]
  | d :: rest, s => by
    show setupInputsFromConfig _ rest = _
    rw [create_new_input_append, setupInputsFromConfig_eq rest]
    simp [buildInputs]
    omega

theorem setupOutputsFromConfig_eq :
    ∀ (descs : List OutputDesc) (s : NodeInstance),
      setupOutputsFromConfig s descs =
        { s with outputs := s.outputs ++ buildOutputs s.next_pid descs,
                 next_pid := s.next_pid + descs.length }
  | [], s => by simp [setupOutputsFromConfig, buildOutputs]
  | d :: rest, s => by
    show setupOutputsFromConfig _ rest = _
    rw [create_new_output_append, setupOutputsFromConfig_eq rest]
    simp [buildOutputs]
    omega

theorem setup_ports_config_eq (s : NodeInstance)
    (ic : List InputDesc) (oc : List OutputDesc)
    (hne : (ic.isEmpty && oc.isEmpty) = false) :
    s.setup_ports (some ic) (some oc) =
      { s with inputs := s.inputs ++ buildInputs s.next_pid ic,
               outputs := s.outputs ++
                 buildOutputs (s.next_pid + ic.length) oc,
               next_pid := s.next_pid + ic.length + oc.length } := by
  unfold NodeInstance.setup_ports
  rw [show (some ic).getD ([] : List InputDesc) = ic from rfl,
    show (some oc).getD ([] : List OutputDesc) = oc from rfl, hne]
  rw [if_neg (by simp)]
  rw [setupInputsFromConfig_eq, setupOutputsFromConfig_eq]

mutual
/-- Well-formedness of one live special-actions entry under key `k` (the
shape the source maintains, spec section 3: the bound behavior sits under
the key `'method'`, its payload under `'data'`; submenus are nested
dicts). -/
def SAWFval (k : String) : SAVal → Bool
  | SAVal.m _ => k == "method"
  | SAVal.callableV _ => k == "method"
  | SAVal.v _ => k == "data"
  | SAVal.dict d => SAWF d
/-- Well-formedness of a live special-actions dict. -/
def SAWF : SADict → Bool
  | SADict.nil => true
  | SADict.cons k v rest => SAWFval k v && SAWF rest
end

mutual
/-- Whether the bound-behavior names in one live entry value resolve on the
instance (`getattr` succeeds). -/
def SAResolvableVal (methods : String → Bool) : SAVal → Bool
  | SAVal.m name => methods name
  | SAVal.callableV name => methods name
  | SAVal.v _ => true
  | SAVal.dict d => SAResolvable methods d
/-- Whether every bound-behavior name in a live special-actions dict
resolves on the instance. -/
def SAResolvable (methods : String → Bool) : SADict → Bool
  | SADict.nil => true
  | SADict.cons _ v rest =>
    SAResolvableVal methods v && SAResolvable methods rest
end

mutual
/-- Normal form of one live entry value after a persistence round trip:
a plain callable comes back wrapped in `M` (same name), everything else is
unchanged. -/
def SANormVal : SAVal → SAVal
  | SAVal.m name => SAVal.m name
  | SAVal.callableV name => SAVal.m name
  | SAVal.v jv => SAVal.v jv
  | SAVal.dict d => SAVal.dict (SANorm d)
/-- Normal form of a live special-actions dict after a round trip. -/
def SANorm : SADict → SADict
  | SADict.nil => SADict.nil
  | SADict.cons k v rest => SADict.cons k (SANormVal v) (SANorm rest)
end

mutual
theorem sa_set_get_val (methods : String → Bool) :
    ∀ (k : String) (v : SAVal), SAWFval k v = true →
      SAResolvableVal methods v = true →
      setSpecialActionEntry methods k (cleanedActionVal v) =
        Except.ok (some (SANormVal v))
  | k, SAVal.m name => by
    intro hwf hres
    have hk : k = "method" := by simpa [SAWFval] using hwf
    have hm : methods name = true := by simpa [SAResolvableVal] using hres
    subst hk
    simp [cleanedActionVal, setSpecialActionEntry, hm, SANormVal]
  | k, SAVal.callableV name => by
    intro hwf hres
    have hk : k = "method" := by simpa [SAWFval] using hwf
    have hm : methods name = true := by simpa [SAResolvableVal] using hres
    subst hk
    simp [cleanedActionVal, setSpecialActionEntry, hm, SANormVal]
  | k, SAVal.v jv => by
    intro hwf _
    have hk : k = "data" := by simpa [SAWFval] using hwf
    subst hk
    simp [cleanedActionVal, setSpecialActionEntry, SANormVal]
  | k, SAVal.dict d => by
    intro hwf hres
    have hwd : SAWF d = true := by simpa [SAWFval] using hwf
    have hrd : SAResolvable methods d = true := by
      simpa [SAResolvableVal] using hres
    show setSpecialActionEntry methods k
      (SAData.dict (NodeInstance.get_special_actions_data d)) = _
    rw [setSpecialActionEntry, sa_set_get methods d hwd hrd]
    rfl
theorem sa_set_get (methods : String → Bool) :
    ∀ d : SADict, SAWF d = true → SAResolvable methods d = true →
      NodeInstance.set_special_actions_data methods
        (NodeInstance.get_special_actions_data d) = Except.ok (SANorm d)
  | SADict.nil => fun _ _ => by
    rw [NodeInstance.get_special_actions_data,
      NodeInstance.set_special_actions_data, SANorm]
  | SADict.cons k v rest => by
    intro hwf hres
    have hwf2 : SAWFval k v = true ∧ SAWF rest = true := by
      have h := hwf
      rw [SAWF] at h
      simpa using h
    have hres2 : SAResolvableVal methods v = true ∧
        SAResolvable methods rest = true := by
      have h := hres
      rw [SAResolvable] at h
      simpa using h
    rw [NodeInstance.get_special_actions_data,
      NodeInstance.set_special_actions_data,
      sa_set_get_val methods k v hwf2.1 hres2.1,
      sa_set_get methods rest hwf2.2 hres2.2, SANorm]
    rfl
end

mutual
theorem sa_get_norm_val :
    ∀ v : SAVal, cleanedActionVal (SANormVal v) = cleanedActionVal v
  | SAVal.m name => rfl
  | SAVal.callableV name => by
    rw [SANormVal, cleanedActionVal, cleanedActionVal]
  | SAVal.v jv => rfl
  | SAVal.dict d => by
    rw [SANormVal, cleanedActionVal, cleanedActionVal, sa_get_norm d]
theorem sa_get_norm :
    ∀ d : SADict,
      NodeInstance.get_special_actions_data (SANorm d) =
        NodeInstance.get_special_actions_data d
  | SADict.nil => rfl
  | SADict.cons k v rest => by
    rw [SANorm, NodeInstance.get_special_actions_data,
      NodeInstance.get_special_actions_data, sa_get_norm rest,
      sa_get_norm_val v]
end

/-- The node state `initialized()` reaches right before resolving the
special actions, when loading from a description whose port lists are not
both empty: ports rebuilt from the description, main widget fed from
`main widget data` when present, everything else still at its constructed
defaults. -/
def stage2Rec (pn : Node) (cfg : NIDesc) : NodeInstance :=
  { parent_node := pn,
    inputs := buildInputs 0 cfg.inputs,
    outputs := buildOutputs cfg.inputs.length cfg.outputs,
    special_actions := SADict.nil,
    main_widget :=
      if pn.has_main_widget then some (cfg.main_widget_data.getD JData.null)
      else none,
    state_data := JData.null,
    temp_state_data := JData.null,
    init_config := some cfg,
    next_pid := cfg.inputs.length + cfg.outputs.length }

theorem finish_init_config (pn : Node) (cfg : NIDesc)
    (methods : String → Bool)
    (hne : (cfg.inputs.isEmpty && cfg.outputs.isEmpty) = false) :
    (NodeInstance.construct pn (some cfg)).finish_init methods =
      (match NodeInstance.set_special_actions_data methods
          cfg.special_actions with
       | Except.error e => (stage2Rec pn cfg, some e)
       | Except.ok acts =>
         ({ stage2Rec pn cfg with
             special_actions := acts,
             temp_state_data := cfg.state_data,
             state_data := cfg.state_data }, none)) := by
  have hsetup := setup_ports_config_eq (NodeInstance.construct pn (some cfg))
    cfg.inputs cfg.outputs hne
  unfold NodeInstance.finish_init
  dsimp only [NodeInstance.construct]
  rw [show (NodeInstance.construct pn (some cfg)) =
    { parent_node := pn, inputs := [], outputs := [],
      special_actions := SADict.nil,
      main_widget := if pn.has_main_widget then some JData.null else none,
      state_data := JData.null, temp_state_data := JData.null,
      init_config := some cfg, next_pid := 0 } from rfl] at hsetup
  rw [hsetup]
  cases hacts : NodeInstance.set_special_actions_data methods
      cfg.special_actions with
  | error e =>
    by_cases hmw : pn.has_main_widget <;>
      cases hmwd : cfg.main_widget_data <;>
        simp [hmw, hmwd, hacts, stage2Rec]
  | ok acts =>
    by_cases hmw : pn.has_main_widget <;>
      cases hmwd : cfg.main_widget_data <;>
        by_cases hsd : cfg.state_data = JData.null <;>
          simp [hmw, hmwd, hacts, hsd, stage2Rec]

/-- The observable configuration of an input port instance: kind tag,
label, widget configuration and the widget's value. -/
def InputPortInstance.port_fields (p : InputPortInstance) :
    String × String × Option String × Option String × Option String ×
      JData :=
  (p.type_, p.label, p.widget_type, p.widget_name, p.widget_pos,
   p.widget_val)

/-- The port configuration recorded by an input description (widget fields
count only when a widget is recorded, and a restored widget starts from the
recorded widget data, or its default value when none was recorded). -/
def InputDesc.port_fields (d : InputDesc) :
    String × String × Option String × Option String × Option String ×
      JData :=
  (d.type_, d.label,
   if d.has_widget then d.widget_type else none,
   if d.has_widget then d.widget_name else none,
   if d.has_widget then d.widget_pos else none,
   (if d.has_widget then d.widget_data else none).getD JData.null)

theorem buildInputs_fields :
    ∀ (descs : List InputDesc) (pid : Nat),
      (buildInputs pid descs).map InputPortInstance.port_fields =
        descs.map InputDesc.port_fields
  | [], _ => rfl
  | d :: rest, pid => by
    rw [buildInputs, List.map_cons, List.map_cons,
      buildInputs_fields rest]
    rfl

theorem buildOutputs_fields :
    ∀ (descs : List OutputDesc) (pid : Nat),
      (buildOutputs pid descs).map (fun o => (o.type_, o.label)) =
        descs.map (fun d => (d.type_, d.label))
  | [], _ => rfl
  | d :: rest, pid => by
    rw [buildOutputs, List.map_cons, List.map_cons,
      buildOutputs_fields rest]
    rfl

theorem buildInputs_unconnected :
    ∀ (descs : List InputDesc) (pid : Nat),
      ∀ p ∈ buildInputs pid descs, p.connected_port_instances = []
  | [], _ => by simp [buildInputs]
  | d :: rest, pid => by
    intro p hp
    rw [buildInputs] at hp
    rcases List.mem_cons.mp hp with h | h
    · subst h; rfl
    · exact buildInputs_unconnected rest (pid + 1) p h

theorem buildOutputs_unconnected :
    ∀ (descs : List OutputDesc) (pid : Nat),
      ∀ o ∈ buildOutputs pid descs, o.connected_port_instances = []
  | [], _ => by simp [buildOutputs]
  | d :: rest, pid => by
    intro o ho
    rw [buildOutputs] at ho
    rcases List.mem_cons.mp ho with h | h
    · subst h; rfl
    · exact buildOutputs_unconnected rest (pid + 1) o h

theorem buildInputs_get? :
    ∀ (descs : List InputDesc) (pid j : Nat),
      (buildInputs pid descs).get? j =
        (descs.get? j).map (fun d => descInput (pid + j) d)
  | [], _, _ => by simp [buildInputs]
  | d :: rest, pid, 0 => by simp [buildInputs]
  | d :: rest, pid, j + 1 => by
    rw [buildInputs]
    show (buildInputs (pid + 1) rest).get? j = _
    rw [buildInputs_get? rest (pid + 1) j]
    have : pid + 1 + j = pid + (j + 1) := by omega
    rw [this]
    rfl

/-- The no-port description used for the C8 counterexample: no inputs,
no outputs. -/
def fxCfgEmptyPorts : NIDesc :=
  { parent_node_title := "Tpl", parent_node_type := "std",
    parent_node_package := "base", parent_node_description := "" }

/-- C8 counterexample: the source guards `setup_ports` with Python
falsiness (`if not inputs_config and not outputs_config:`), so a persisted
description whose `inputs` and `outputs` lists are both EMPTY is restored
from the current template's default ports instead of the (empty)
description: restored against template `fxNodeIn` (one default input
`tin`), the instance gets one input where the description prescribes
none. -/
theorem C8_empty_ports_counterexample :
    fxCfgEmptyPorts.inputs = [] ∧
    ((NodeInstance.construct fxNodeIn (some fxCfgEmptyPorts)).finish_init
        (fun _ => false)).1.inputs.map (fun p => p.label) = ["tin"] ∧
    fxNodeIn.inputs.map (fun t => t.label) = ["tin"] ∧
    (["tin"] : List String) ≠ [] :=
  ⟨rfl, rfl, rfl, by decide⟩

/-- C8 (amended): when at least one of the description's port lists is
non-empty, `initialized()` reconstructs the ports exactly in the order
given by the description — with matching type, label and widget
configuration, determined by the description alone, not by the current
template — then applies `custom_state` via `set_data` and resolves the
special actions to bound behaviors; when both port lists are empty, the
ports come from the template defaults instead (see the counterexample). -/
theorem C8_restore_from_description (pn : Node) (cfg : NIDesc)
    (methods : String → Bool) (acts : SADict)
    (hne : (cfg.inputs.isEmpty && cfg.outputs.isEmpty) = false)
    (hacts : NodeInstance.set_special_actions_data methods
      cfg.special_actions = Except.ok acts) :
    (NodeInstance.construct pn (some cfg)).finish_init methods =
      ({ stage2Rec pn cfg with
          special_actions := acts,
          temp_state_data := cfg.state_data,
          state_data := cfg.state_data }, none) ∧
    (stage2Rec pn cfg).inputs.map InputPortInstance.port_fields =
      cfg.inputs.map InputDesc.port_fields ∧
    (stage2Rec pn cfg).outputs.map (fun o => (o.type_, o.label)) =
      cfg.outputs.map (fun d => (d.type_, d.label)) := by
  refine ⟨?_, ?_, ?_⟩
  · rw [finish_init_config pn cfg methods hne, hacts]
  · exact buildInputs_fields cfg.inputs 0
  · exact buildOutputs_fields cfg.outputs cfg.inputs.length

/-- A one-input description used by the C8 witness. -/
def fxCfgOnePort : NIDesc :=
  { parent_node_title := "Tpl", parent_node_type := "std",
    parent_node_package := "base", parent_node_description := "",
    state_data := JData.int 2,
    inputs := [{ type_ := "exec", label := "cin", has_widget := false }] }

/-- Witness for C8: restored against template `fxNodeIn` (whose default
input is `tin`), the description's single `cin` input wins. -/
theorem C8_restore_from_description_witness :
    (NodeInstance.construct fxNodeIn (some fxCfgOnePort)).finish_init
        (fun _ => false) =
      ({ stage2Rec fxNodeIn fxCfgOnePort with
          special_actions := SADict.nil,
          temp_state_data := JData.int 2,
          state_data := JData.int 2 }, none) ∧
    (stage2Rec fxNodeIn fxCfgOnePort).inputs.map
        InputPortInstance.port_fields =
      fxCfgOnePort.inputs.map InputDesc.port_fields := by
  have h := C8_restore_from_description fxNodeIn fxCfgOnePort
    (fun _ => false) SADict.nil rfl rfl
  exact ⟨h.1, h.2.1⟩

/-- The description with an unresolvable special-action method name used
for the C3 scenario: one input, custom state `int 7`, and an action whose
`method` is the no-longer-existing name `gone`. -/
def fxCfgBadAction : NIDesc :=
  { parent_node_title := "Tpl", parent_node_type := "std",
    parent_node_package := "base", parent_node_description := "",
    state_data := JData.int 7,
    special_actions := SADataDict.cons "act"
      (SAData.dict (SADataDict.cons "method" (SAData.v (JData.str "gone"))
        SADataDict.nil)) SADataDict.nil,
    inputs := [{ type_ := "data", label := "x", has_widget := false }] }

/-- C3 counterexample: loading `fxCfgBadAction` on an instance without a
method `gone` does NOT recover per-entry — `getattr` raises
AttributeError out of `set_special_actions_data` and `initialized()`
aborts: the ports (restored earlier) survive, but `custom_state` is never
applied (`state_data` stays at its constructed default instead of the
description's `int 7`). -/
theorem C3_resolution_counterexample :
    ((NodeInstance.construct fxNodeIn (some fxCfgBadAction)).finish_init
        (fun _ => false)).2 = some PyErr.attributeError ∧
    ((NodeInstance.construct fxNodeIn (some fxCfgBadAction)).finish_init
        (fun _ => false)).1.state_data = JData.null ∧
    fxCfgBadAction.state_data = JData.int 7 ∧
    JData.null ≠ JData.int 7 ∧
    ((NodeInstance.construct fxNodeIn (some fxCfgBadAction)).finish_init
        (fun _ => false)).1.inputs.map (fun p => p.label) = ["x"] :=
  ⟨rfl, rfl, rfl, by decide, rfl⟩

/-- C3 (amended): an unresolvable special-action method name makes
`set_special_actions_data` raise (AttributeError from `getattr`), and the
exception propagates out of `initialized()` instead of being recovered
per-entry: the load aborts with the ports already restored from the
description, but with the special actions left unassigned and
`custom_state` NOT applied. -/
theorem C3_resolution_fault_aborts (pn : Node) (cfg : NIDesc)
    (methods : String → Bool) (e : PyErr)
    (hne : (cfg.inputs.isEmpty && cfg.outputs.isEmpty) = false)
    (herr : NodeInstance.set_special_actions_data methods
      cfg.special_actions = Except.error e) :
    (NodeInstance.construct pn (some cfg)).finish_init methods =
      (stage2Rec pn cfg, some e) ∧
    (stage2Rec pn cfg).inputs.map InputPortInstance.port_fields =
      cfg.inputs.map InputDesc.port_fields ∧
    (stage2Rec pn cfg).state_data = JData.null ∧
    (stage2Rec pn cfg).special_actions = SADict.nil := by
  refine ⟨?_, buildInputs_fields cfg.inputs 0, rfl, rfl⟩
  rw [finish_init_config pn cfg methods hne, herr]

/-- Witness for C3 (amended) at `fxCfgBadAction`. -/
theorem C3_resolution_fault_aborts_witness :
    (NodeInstance.construct fxNodeIn (some fxCfgBadAction)).finish_init
        (fun _ => false) =
      (stage2Rec fxNodeIn fxCfgBadAction, some PyErr.attributeError) ∧
    (stage2Rec fxNodeIn fxCfgBadAction).state_data = JData.null := by
  have h := C3_resolution_fault_aborts fxNodeIn fxCfgBadAction
    (fun _ => false) PyErr.attributeError rfl rfl
  exact ⟨h.1, h.2.2.1⟩

theorem descInput_get_json_data (pid : Nat) (p : InputPortInstance) :
    (descInput pid p.get_json_data).get_json_data = p.get_json_data := by
  cases hw : p.widget_type <;>
    simp [descInput, InputPortInstance.get_json_data, hw]

theorem buildInputs_get_json_data :
    ∀ (ps : List InputPortInstance) (pid : Nat),
      (buildInputs pid (ps.map InputPortInstance.get_json_data)).map
          InputPortInstance.get_json_data =
        ps.map InputPortInstance.get_json_data
  | [], _ => rfl
  | p :: rest, pid => by
    rw [List.map_cons, buildInputs, List.map_cons,
      descInput_get_json_data, buildInputs_get_json_data rest]

theorem buildOutputs_get_json_data :
    ∀ (os : List OutputPortInstance) (pid : Nat),
      (buildOutputs pid (os.map OutputPortInstance.get_json_data)).map
          OutputPortInstance.get_json_data =
        os.map OutputPortInstance.get_json_data
  | [], _ => rfl
  | o :: rest, pid => by
    rw [List.map_cons, buildOutputs, List.map_cons,
      buildOutputs_get_json_data rest]
    rfl

/-- A port's widget bookkeeping is tidy: either it has a widget, or the
widget fields all sit at their defaults (`None` names, default value) —
the state every port reachable through the modelled API has, since
`create_new_input` without a widget never stores widget data. -/
def InputPortInstance.widget_tidy (p : InputPortInstance) : Bool :=
  p.widget_type.isSome ||
    ((p.widget_name == (none : Option String)) &&
     (p.widget_pos == (none : Option String)) &&
     (p.widget_val == JData.null))

theorem descInput_fields_of_wf (pid : Nat) (p : InputPortInstance)
    (hwv : p.widget_tidy = true) :
    (descInput pid p.get_json_data).port_fields = p.port_fields := by
  cases hw : p.widget_type with
  | none =>
    have h3 : p.widget_name = none ∧ p.widget_pos = none ∧
        p.widget_val = JData.null := by
      have := hwv
      rw [InputPortInstance.widget_tidy, hw] at this
      simp at this
      tauto
    simp [descInput, InputPortInstance.get_json_data,
      InputPortInstance.port_fields, hw, h3.1, h3.2.1, h3.2.2]
  | some wt =>
    simp [descInput, InputPortInstance.get_json_data,
      InputPortInstance.port_fields, hw]

theorem buildInputs_fields_of_wf :
    ∀ (ps : List InputPortInstance) (pid : Nat),
      ps.all InputPortInstance.widget_tidy = true →
      (buildInputs pid (ps.map InputPortInstance.get_json_data)).map
          InputPortInstance.port_fields =
        ps.map InputPortInstance.port_fields
  | [], _ => fun _ => rfl
  | p :: rest, pid => by
    intro hall
    have hp : p.widget_tidy = true :=
      (List.all_eq_true.mp hall) p (List.mem_cons_self p rest)
    have hrest : rest.all InputPortInstance.widget_tidy = true := by
      rw [List.all_cons] at hall
      exact (by simpa using hall : _ ∧ _).2
    rw [List.map_cons, buildInputs, List.map_cons,
      descInput_fields_of_wf pid p hp,
      buildInputs_fields_of_wf rest _ hrest]
    rw [List.map_cons]

/-- C1 (amended): for an instance whose port lists are not both empty,
whose special actions are well-formed and resolvable, whose main-widget
presence matches its template, and whose widget values live only on ports
with widgets, `deserialize(serialize(x))` loads without error and is
observationally equivalent to `x` on: a second `serialize()` call (equal
descriptions), the port structure (types, labels, widget configuration and
widget values, in order), and the effective value of every unconnected
input; the restored instance carries no connections (connections are
Flow-owned and not part of the node description), so its `exec_output`
fan-out is empty — and, per the counterexample, the OUTPUT STORED VALUES
are NOT preserved: output descriptions carry only type and label, so every
restored output holds the default value again. -/
theorem C1_roundtrip_observational (x : NodeInstance)
    (methods : String → Bool)
    (hne : (x.inputs.isEmpty && x.outputs.isEmpty) = false)
    (hwf : SAWF x.special_actions = true)
    (hres : SAResolvable methods x.special_actions = true)
    (hmw : x.main_widget.isSome = x.parent_node.has_main_widget)
    (hwv : x.inputs.all InputPortInstance.widget_tidy = true) :
    (((NodeInstance.construct x.parent_node (some x.get_json_data)
        ).finish_init methods).2 = none) ∧
    ((((NodeInstance.construct x.parent_node (some x.get_json_data)
        ).finish_init methods).1.get_json_data) = x.get_json_data) ∧
    ((((NodeInstance.construct x.parent_node (some x.get_json_data)
        ).finish_init methods).1.inputs.map
          InputPortInstance.port_fields) =
      x.inputs.map InputPortInstance.port_fields) ∧
    ((((NodeInstance.construct x.parent_node (some x.get_json_data)
        ).finish_init methods).1.outputs.map (fun o => (o.type_, o.label)))
      = x.outputs.map (fun o => (o.type_, o.label))) ∧
    (∀ (j : Nat) (p : InputPortInstance), x.inputs.get? j = some p →
      p.connected_port_instances = [] →
      ∀ (w w' : Flow),
        NodeInstance.input w'
          (((NodeInstance.construct x.parent_node (some x.get_json_data)
            ).finish_init methods).1) (j : Int) =
        NodeInstance.input w x (j : Int)) ∧
    (∀ o' ∈ (((NodeInstance.construct x.parent_node (some x.get_json_data)
        ).finish_init methods).1).outputs,
      o'.connected_port_instances = []) := by
  have hne' : ((x.get_json_data).inputs.isEmpty &&
      (x.get_json_data).outputs.isEmpty) = false := by
    show ((x.inputs.map InputPortInstance.get_json_data).isEmpty &&
      (x.outputs.map OutputPortInstance.get_json_data).isEmpty) = false
    cases hi : x.inputs <;> cases ho : x.outputs <;>
      rw [hi, ho] at hne <;> simpa using hne
  have hacts : NodeInstance.set_special_actions_data methods
      (x.get_json_data).special_actions =
      Except.ok (SANorm x.special_actions) :=
    sa_set_get methods x.special_actions hwf hres
  have hfin := finish_init_config x.parent_node (x.get_json_data) methods
    hne'
  rw [hacts] at hfin
  rw [hfin]
  refine ⟨rfl, ?_, ?_, ?_, ?_, ?_⟩
  · show NodeInstance.get_json_data _ = _
    unfold NodeInstance.get_json_data
    dsimp only [stage2Rec]
    have hmweq :
        (if x.parent_node.has_main_widget = true then
          some (x.main_widget.getD JData.null)
         else none) = x.main_widget := by
      cases hx : x.main_widget with
      | none =>
        have hfalse : x.parent_node.has_main_widget = false := by
          rw [← hmw, hx]
          rfl
        rw [hfalse]
        simp
      | some d =>
        have htrue : x.parent_node.has_main_widget = true := by
          rw [← hmw, hx]
          rfl
        rw [htrue]
        simp
    rw [hmweq, sa_get_norm x.special_actions, buildInputs_get_json_data,
      buildOutputs_get_json_data]
  · exact buildInputs_fields_of_wf x.inputs 0 hwv
  · show (buildOutputs _ (x.outputs.map OutputPortInstance.get_json_data)
        ).map (fun o => (o.type_, o.label)) = _
    rw [buildOutputs_fields]
    rw [List.map_map]
    rfl
  · intro j p hjp hpconn w w'
    have hjlen : j < x.inputs.length := by
      by_contra hge
      rw [List.get?_eq_getElem?, List.getElem?_eq_none (by omega)] at hjp
      exact absurd hjp (by simp)
    have hxside : NodeInstance.input w x (j : Int) =
        Except.ok (p.get_val w) := by
      unfold NodeInstance.input
      rw [pyIndex_ok_of_get? (pyResolve_nonneg hjlen) hjp]
      rfl
    have hpval : p.get_val w = p.widget_val := by
      unfold InputPortInstance.get_val
      rw [hpconn]
      rfl
    have hdesc : (x.get_json_data).inputs.get? j =
        some p.get_json_data := by
      show (x.inputs.map InputPortInstance.get_json_data).get? j = _
      rw [List.get?_eq_getElem?, List.getElem?_map, ← List.get?_eq_getElem?,
        hjp]
      rfl
    have hx'get : (buildInputs 0 (x.get_json_data).inputs).get? j =
        some (descInput j p.get_json_data) := by
      rw [buildInputs_get?, hdesc]
      simp
    have hx'len : j < (buildInputs 0 (x.get_json_data).inputs).length := by
      by_contra hge
      rw [List.get?_eq_getElem?, List.getElem?_eq_none (by omega)]
        at hx'get
      exact absurd hx'get (by simp)
    have hx'side : NodeInstance.input w'
        ({ stage2Rec x.parent_node (x.get_json_data) with
            special_actions := SANorm x.special_actions,
            temp_state_data := (x.get_json_data).state_data,
            state_data := (x.get_json_data).state_data }) (j : Int) =
        Except.ok ((descInput j p.get_json_data).get_val w') := by
      unfold NodeInstance.input
      dsimp only [stage2Rec]
      rw [pyIndex_ok_of_get? (pyResolve_nonneg hx'len) hx'get]
      rfl
    rw [hxside, hx'side]
    have hdval : (descInput j p.get_json_data).get_val w' =
        (descInput j p.get_json_data).widget_val := by
      unfold InputPortInstance.get_val
      rfl
    rw [hdval, hpval]
    have hp : p.widget_tidy = true :=
      (List.all_eq_true.mp hwv) p (List.get?_mem hjp)
    have : (descInput j p.get_json_data).port_fields = p.port_fields :=
      descInput_fields_of_wf j p hp
    have hvv : (descInput j p.get_json_data).widget_val = p.widget_val :=
      congrArg (fun t => t.2.2.2.2.2) this
    rw [hvv]
  · intro o' ho'
    exact buildOutputs_unconnected _ _ o' ho'

/-- A live instance exercising every serialized member, used by the C1
witness: a widget input, a data output holding `int 4`, a submenu special
action with method and data, and custom state `int 3`. -/
def fxC1 : NodeInstance :=
  { parent_node := fxNode,
    inputs := [{ pid := 5, type_ := "data", label := "a",
                 widget_type := some "std line edit",
                 widget_name := some "w", widget_pos := some "under",
                 widget_val := JData.int 7 }],
    outputs := [{ pid := 6, type_ := "data", label := "b",
                  val := JData.int 4 }],
    special_actions := SADict.cons "act"
      (SAVal.dict (SADict.cons "method" (SAVal.m "do_it")
        (SADict.cons "data" (SAVal.v (JData.int 1)) SADict.nil)))
      SADict.nil,
    main_widget := none,
    state_data := JData.int 3,
    next_pid := 7 }

/-- Witness for C1 (amended) at `fxC1`: the reload succeeds and a second
`get_json_data` reproduces the first description. -/
theorem C1_roundtrip_observational_witness :
    (((NodeInstance.construct fxC1.parent_node (some fxC1.get_json_data)
        ).finish_init (fun n => n == "do_it")).2 = none) ∧
    ((((NodeInstance.construct fxC1.parent_node (some fxC1.get_json_data)
        ).finish_init (fun n => n == "do_it")).1.get_json_data) =
      fxC1.get_json_data) := by
  have h := C1_roundtrip_observational fxC1 (fun n => n == "do_it")
    rfl rfl rfl rfl rfl
  exact ⟨h.1, h.2.1⟩

/-- The instance freshly built from `fxNodeOut` (its template's one data
output), used by the C1 counterexample. -/
def fxRT0 : NodeInstance :=
  ((NodeInstance.construct fxNodeOut none).finish_init (fun _ => false)).1

/-- `fxRT0` after `set_output_val(0, int 5)`. -/
def fxRT1 : NodeInstance :=
  match NodeInstance.set_output_val fxRT0 0 (JData.int 5) with
  | Except.ok r => r.1
  | Except.error _ => fxRT0

/-- C1 counterexample: output stored values are NOT round-tripped. `fxRT1`
holds `int 5` on its only output; output descriptions carry only type and
label, so `deserialize(serialize(fxRT1))` holds the default value again —
the deserialized instance is not observationally equivalent to the
original on output stored values. -/
theorem C1_roundtrip_counterexample :
    fxRT1.outputs.map (fun o => o.val) = [JData.int 5] ∧
    ((NodeInstance.construct fxNodeOut (some fxRT1.get_json_data)
        ).finish_init (fun _ => false)).1.outputs.map (fun o => o.val) =
      [JData.null] ∧
    ([JData.null] : List JData) ≠ [JData.int 5] :=
  ⟨rfl, rfl, by decide⟩

/-- The node whose input (pid 1) holds two connections, to the outputs of
`fxDelB` (pid 10) and `fxDelC` (pid 20). -/
def fxDelD : NodeInstance :=
  { parent_node := fxNode,
    inputs := [{ pid := 1, type_ := "data", label := "a",
                 connected_port_instances := [10, 20] }],
    next_pid := 2 }

/-- First peer: its data output (pid 10) is connected to input 1. -/
def fxDelB : NodeInstance :=
  { parent_node := fxNode,
    outputs := [{ pid := 10, type_ := "data", label := "o",
                  connected_port_instances := [1] }],
    next_pid := 11 }

/-- Second peer: its data output (pid 20) is connected to input 1. -/
def fxDelC : NodeInstance :=
  { parent_node := fxNode,
    outputs := [{ pid := 20, type_ := "data", label := "o",
                  connected_port_instances := [1] }],
    next_pid := 21 }

/-- The three-node flow for the C9 scenario. -/
def fxDelFlow : Flow := [fxDelD, fxDelB, fxDelC]

/-- C9: evaluation at the failing input. Deleting a port that does not
belong to the instance does surface an error (`self.inputs.remove(inp)`
raises ValueError — first conjunct, the invalid-reference half of the
claim holds). But a successful `delete_input` of a port holding TWO
connections leaves a dangling reference: the severing loop iterates
`inp.connected_port_instances` while `flow.connect_gates` removes entries
from that same list, so Python's internal iteration index skips every
other connection — after deleting input pid 1 of node 0, the port is gone
from the port list and the first peer (output pid 10) was severed, yet the
second peer (output pid 20) still references the deleted port. -/
theorem C9_delete_dangling_evaluation :
    (NodeInstance.delete_input fxDelFlow 1 (InPortArg.ref 1)).2 =
      some PyErr.valueError ∧
    (NodeInstance.delete_input fxDelFlow 0 (InPortArg.int 0)).2 = none ∧
    ((NodeInstance.delete_input fxDelFlow 0 (InPortArg.int 0)).1.get? 0).map
      (fun s => s.inputs.length) = some 0 ∧
    ((NodeInstance.delete_input fxDelFlow 0 (InPortArg.int 0)).1.get? 1).map
      (fun s => s.outputs.map (fun o => o.connected_port_instances)) =
      some [[]] ∧
    ((NodeInstance.delete_input fxDelFlow 0 (InPortArg.int 0)).1.get? 2).map
      (fun s => s.outputs.map (fun o => o.connected_port_instances)) =
      some [[1]] ∧
    (some [[1]] : Option (List (List Nat))) ≠ some [[]] :=
  ⟨rfl, rfl, rfl, rfl, rfl, by decide⟩

end Ryven
